import Mathlib

/-! Package `credentials` (github.com/gford1000-go/aws-credentials)

A shallow embedding of `cred.go`.

* A `*credentialsMap` is an address into a `Heap` of store objects, so that the
  in-place update `m.cred[id] = ...` is visible through every context that
  holds the same address.
* A `context.Context` is an immutable chain of layers (`Ctx`); the nil
  interface value is `none : Context`.
* A `*AWSCredentials` is `Option AWSCredentials`: the records are never
  updated after they are built, so a non-nil pointer is modelled by its
  pointee.
* A call that dereferences a nil pointer does not return: it is a `panicked`
  outcome.
-/

namespace credentials

/-! ## Data model -/

/-- CredentialsID specifies a given set of credentials (`type CredentialsID string`). -/
abbrev CredentialsID := String

/-- AWSCredentials holds details of the AWS key and secret key. -/
structure AWSCredentials where
  id : CredentialsID
  accessKeyID : String
  secretAccessKey : String
deriving DecidableEq, Repr

/-- NewAWSCredentials creates an instance of AWSCredentials from supplied details
with no verification of their correctness; the pointer it returns is never nil. -/
def NewAWSCredentials (id : CredentialsID) (accessKeyID secretAccessKey : String) :
    Option AWSCredentials :=
  some ⟨id, accessKeyID, secretAccessKey⟩

/-- A Go `map[CredentialsID]*AWSCredentials`, as an association list with one
entry per key, in order of first insertion. -/
abbrev CredMap := List (CredentialsID × AWSCredentials)

/-- The map read `a, ok := m[k]`: `some a` when `ok`, `none` otherwise. -/
def CredMap.get (m : CredMap) (k : CredentialsID) : Option AWSCredentials :=
  match m with
  | [] => none
  | (k', v) :: rest => if k' = k then some v else CredMap.get rest k

/-- The map write `m[k] = v`: overwrites the entry of `k` when there is one,
adds an entry otherwise. -/
def CredMap.assign (m : CredMap) (k : CredentialsID) (v : AWSCredentials) : CredMap :=
  match m with
  | [] => [(k, v)]
  | (k', v') :: rest =>
    if k' = k then (k, v) :: rest else (k', v') :: CredMap.assign rest k v

/-- The keys of the map. -/
def CredMap.keys (m : CredMap) : List CredentialsID :=
  m.map Prod.fst

/-- The store `credentialsMap`: the default identifier and the records. -/
structure credentialsMap where
  defaultID : CredentialsID
  cred : CredMap
deriving DecidableEq, Repr

/-- The address of a `credentialsMap` object. -/
abbrev Addr := Nat

/-- The store objects in memory: `next` is the first address not yet
allocated, `mem a` is the object at address `a`. -/
structure Heap where
  next : Addr
  mem : Addr → credentialsMap

/-- The heap before anything was allocated. -/
def Heap.empty : Heap :=
  ⟨0, fun _ => ⟨"", []⟩⟩

/-- The allocation `&credentialsMap{...}`: the object is placed at the first free address. -/
def Heap.alloc (h : Heap) (m : credentialsMap) : Heap × Addr :=
  (⟨h.next + 1, Function.update h.mem h.next m⟩, h.next)

/-- The write `m.cred[k] = v` through the pointer `a`. -/
def Heap.assignCred (h : Heap) (a : Addr) (k : CredentialsID) (v : AWSCredentials) : Heap :=
  ⟨h.next, Function.update h.mem a ⟨(h.mem a).defaultID, (h.mem a).cred.assign k v⟩⟩

/-- A context key: the package's `singletonAWSCredentialsKey` (of the unexported
type `awsCredentials`), or a key of any other package. -/
inductive Key where
  | singletonAWSCredentialsKey
  | other (name : String)
deriving DecidableEq, Repr

/-- A value held in a context (`any`): the nil interface, a `*credentialsMap`
(itself a nil or non-nil pointer), or a value of any other dynamic type. -/
inductive Any where
  | nil
  | credentialsMapPtr (p : Option Addr)
  | other (dyn : String)
deriving DecidableEq, Repr

/-- A non-nil `context.Context` built by the standard library: `Background()`,
`WithValue(parent, key, val)`, and the layers that hold no value of their own
(`WithCancel`, `WithDeadline`, `WithTimeout`). -/
inductive Ctx where
  | background
  | withValue (parent : Ctx) (key : Key) (val : Any)
  | withCancel (parent : Ctx)
deriving DecidableEq, Repr

/-- A `context.Context` interface value; `none` is nil. -/
abbrev Context := Option Ctx

/-- The method `ctx.Value(key)`: the value of the nearest layer that holds `key`. -/
def Ctx.Value (c : Ctx) (k : Key) : Any :=
  match c with
  | .background => .nil
  | .withValue parent key val => if key = k then val else parent.Value k
  | .withCancel parent => parent.Value k

/-- The package's error variables, each made by its own `errors.New`. -/
inductive Error where
  | ErrContextMustNotBeNil
  | ErrCredentialsMustNotBeNil
  | ErrInvalidCredentialsProvided
  | ErrUnexpectedErrorRetrievingCredentials
  | ErrUnknownCredentialsID
deriving DecidableEq, Repr

/-- The text given to `errors.New` for each error variable. -/
def Error.text (e : Error) : String :=
  match e with
  | .ErrContextMustNotBeNil => "no context provided"
  | .ErrCredentialsMustNotBeNil => "no AWS credentials provided"
  | .ErrInvalidCredentialsProvided => "provided credentials are invalid"
  | .ErrUnexpectedErrorRetrievingCredentials => "invalid object stored as AWSCredentials"
  | .ErrUnknownCredentialsID => "credentials for the specified id are unavailable"

/-- A run-time panic of the Go program. -/
inductive Panic where
  | nilPointerDereference
deriving DecidableEq, Repr

/-- How a call ends: it returns a value or it panics. -/
inductive Outcome (α : Type) where
  | returned (a : α)
  | panicked (p : Panic)
deriving DecidableEq, Repr

/-- Modelled from the spec: the provider adapter of §4.3, which stands for the
AWS SDK's static credentials provider (`credentials.NewStaticCredentialsProvider`
is not part of the repository). It holds what the constructor was given. -/
structure StaticCredentialsProvider where
  AccessKeyID : String
  SecretAccessKey : String
  SessionToken : String
deriving DecidableEq, Repr

/-- Modelled from the spec: the constructor of the provider adapter of §4.3
(the AWS SDK's `NewStaticCredentialsProvider(key, secret, session)`). -/
def NewStaticCredentialsProvider (key secret session : String) : StaticCredentialsProvider :=
  ⟨key, secret, session⟩

/-- Modelled from the spec: `retrieve() -> (accessKey, secretKey)` of §4.3, a pure
accessor of the provider adapter (the SDK's `Retrieve` is not part of the repository). -/
def StaticCredentialsProvider.Retrieve (p : StaticCredentialsProvider) : String × String :=
  (p.AccessKeyID, p.SecretAccessKey)

/-! ## Operations -/

/-- The function `credentialsFromContext` of cred.go, on a non-nil context:
the pointer found under the reserved key and the error. -/
def credentialsFromContext (ctx : Ctx) : Option Addr × Option Error :=
  match ctx.Value .singletonAWSCredentialsKey with
  | .nil => (none, none)
  | .credentialsMapPtr m => (m, none)
  | .other _ => (none, some .ErrUnexpectedErrorRetrievingCredentials)

/-- What `ContextWithAWSCredentials` leaves behind: the memory after the call,
the context returned and the error returned. -/
structure Attached where
  heap : Heap
  ctx : Context
  err : Option Error

/-- The function `ContextWithAWSCredentials` of cred.go. -/
def ContextWithAWSCredentials (h : Heap) (ctx : Context) (credentials : Option AWSCredentials) :
    Attached :=
  match ctx with
  | none => ⟨h, ctx, some .ErrContextMustNotBeNil⟩
  | some c =>
    match credentials with
    | none => ⟨h, ctx, some .ErrCredentialsMustNotBeNil⟩
    | some cr =>
      if cr.accessKeyID = "" ∨ cr.secretAccessKey = "" then
        ⟨h, ctx, some .ErrInvalidCredentialsProvided⟩
      else
        match credentialsFromContext c with
        | (_, some _) => ⟨h, ctx, none⟩
        | (none, none) =>
          let new := h.alloc ⟨cr.id, [(cr.id, ⟨cr.id, cr.accessKeyID, cr.secretAccessKey⟩)]⟩
          ⟨new.1, some (.withValue c .singletonAWSCredentialsKey (.credentialsMapPtr (some new.2))),
            none⟩
        | (some m, none) =>
          ⟨h.assignCred m cr.id ⟨cr.id, cr.accessKeyID, cr.secretAccessKey⟩, ctx, none⟩

/-- The result pair of the two lookup functions: the provider (nil or not) and the error. -/
abbrev ProviderResult := Option StaticCredentialsProvider × Option Error

/-- The function `GetCredentialsProvider` of cred.go. Calling `Value` on a nil
context, and reading `m.cred` through a nil `m`, are nil pointer dereferences. -/
def GetCredentialsProvider (h : Heap) (ctx : Context) (id : CredentialsID) :
    Outcome ProviderResult :=
  match ctx with
  | none => .panicked .nilPointerDereference
  | some c =>
    match credentialsFromContext c with
    | (_, some err) => .returned (none, some err)
    | (none, none) => .panicked .nilPointerDereference
    | (some m, none) =>
      match (h.mem m).cred.get id with
      | none => .returned (none, some .ErrUnknownCredentialsID)
      | some a =>
        .returned (some (NewStaticCredentialsProvider a.accessKeyID a.secretAccessKey ""), none)

/-- The function `GetDefaultCredentialsProvider` of cred.go. -/
def GetDefaultCredentialsProvider (h : Heap) (ctx : Context) : Outcome ProviderResult :=
  match ctx with
  | none => .panicked .nilPointerDereference
  | some c =>
    match credentialsFromContext c with
    | (_, some err) => .returned (none, some err)
    | (none, none) => .panicked .nilPointerDereference
    | (some m, none) =>
      match (h.mem m).cred.get (h.mem m).defaultID with
      | none => .returned (none, some .ErrUnknownCredentialsID)
      | some a =>
        .returned (some (NewStaticCredentialsProvider a.accessKeyID a.secretAccessKey ""), none)

/-! ## Lineages -/

/-- A layer a caller can put on a context from outside the package: a value
under a key of its own (never the unexported reserved key), or a layer that
holds no value. -/
inductive Layer where
  | value (key : String) (val : Any)
  | cancel
deriving DecidableEq, Repr

/-- The context derived from `c` by stacking the layers `ls`, first layer innermost. -/
def Ctx.derive (c : Ctx) (ls : List Layer) : Ctx :=
  match ls with
  | [] => c
  | .value k v :: rest => Ctx.derive (.withValue c (.other k) v) rest
  | .cancel :: rest => Ctx.derive (.withCancel c) rest

/-- The memory after the calls `ContextWithAWSCredentials(root.derive ls, &r)`, one for
each `(ls, r)` of `calls` in order: every call goes through a context of the lineage of `root`. -/
def attachAll (h : Heap) (root : Ctx) (calls : List (List Layer × AWSCredentials)) : Heap :=
  match calls with
  | [] => h
  | (ls, r) :: rest =>
    attachAll (ContextWithAWSCredentials h (some (root.derive ls)) (some r)).heap root rest

/-- A record is valid when both of its keys are non-empty. -/
def AWSCredentials.valid (r : AWSCredentials) : Prop :=
  r.accessKeyID ≠ "" ∧ r.secretAccessKey ≠ ""

instance (r : AWSCredentials) : Decidable r.valid :=
  inferInstanceAs (Decidable (_ ∧ _))

/-- The record a lookup of `id` finds after `first` and then `rest` were written
under their ids, when `first` has that id: the last of them with that id. -/
def lastWithID (id : CredentialsID) (first : AWSCredentials) (rest : List AWSCredentials) :
    AWSCredentials :=
  match rest with
  | [] => first
  | r :: rs => lastWithID id (if r.id = id then r else first) rs

/-- The memory after the calls `ContextWithAWSCredentials(ctx, r)`, one for each
`(ctx, r)` of `calls` in order, on any contexts and records, nil ones included. -/
def attachCalls (h : Heap) (calls : List (Context × Option AWSCredentials)) : Heap :=
  match calls with
  | [] => h
  | (ctx, r) :: rest => attachCalls (ContextWithAWSCredentials h ctx r).heap rest

/-- Every allocated store has a non-empty map that holds its default id. -/
def Heap.wellFormed (h : Heap) : Prop :=
  ∀ a, a < h.next → (h.mem a).cred ≠ [] ∧ (h.mem a).defaultID ∈ (h.mem a).cred.keys

/-- Every record of every allocated store has both keys non-empty and is held
under the key equal to its own id. -/
def Heap.recordsValid (h : Heap) : Prop :=
  ∀ a, a < h.next → ∀ e ∈ (h.mem a).cred, e.2.valid ∧ e.1 = e.2.id

/-! ## The map and the context chain -/

theorem CredMap.get_assign_same (m : CredMap) (k : CredentialsID) (v : AWSCredentials) :
    (m.assign k v).get k = some v := by
  induction m with
  | nil => simp [CredMap.assign, CredMap.get]
  | cons e rest ih =>
    obtain ⟨k', v'⟩ := e
    by_cases hk : k' = k
    · simp [CredMap.assign, CredMap.get, hk]
    · simp [CredMap.assign, CredMap.get, hk, ih]

theorem CredMap.get_assign_ne (m : CredMap) (k j : CredentialsID) (v : AWSCredentials)
    (hj : j ≠ k) : (m.assign k v).get j = m.get j := by
  induction m with
  | nil => simp [CredMap.assign, CredMap.get, Ne.symm hj]
  | cons e rest ih =>
    obtain ⟨k', v'⟩ := e
    by_cases hk : k' = k
    · subst hk
      simp [CredMap.assign, CredMap.get, Ne.symm hj]
    · by_cases hkj : k' = j
      · subst hkj
        simp [CredMap.assign, CredMap.get, hj]
      · simp [CredMap.assign, CredMap.get, hk, hkj, ih]

theorem CredMap.get_assign (m : CredMap) (k j : CredentialsID) (v : AWSCredentials) :
    (m.assign k v).get j = if j = k then some v else m.get j := by
  by_cases hj : j = k
  · subst hj
    simp [CredMap.get_assign_same]
  · simp [hj, CredMap.get_assign_ne m k j v hj]

theorem CredMap.get_eq_none_iff (m : CredMap) (k : CredentialsID) :
    m.get k = none ↔ k ∉ m.keys := by
  induction m with
  | nil => simp [CredMap.get, CredMap.keys]
  | cons e rest ih =>
    obtain ⟨k', v'⟩ := e
    by_cases hk : k' = k
    · simp [CredMap.get, CredMap.keys, hk]
    · have hk2 : ¬ k = k' := fun e => hk e.symm
      simp only [CredMap.keys] at ih
      simp [CredMap.get, CredMap.keys, hk, hk2, ih]

theorem CredMap.assign_ne_nil (m : CredMap) (k : CredentialsID) (v : AWSCredentials) :
    m.assign k v ≠ [] := by
  cases m with
  | nil => simp [CredMap.assign]
  | cons e rest =>
    obtain ⟨k', v'⟩ := e
    by_cases hk : k' = k <;> simp [CredMap.assign, hk]

theorem CredMap.mem_keys_assign (m : CredMap) (k j : CredentialsID) (v : AWSCredentials)
    (hj : j ∈ m.keys) : j ∈ (m.assign k v).keys := by
  by_contra hcon
  have h1 := (CredMap.get_eq_none_iff (m.assign k v) j).mpr hcon
  rw [CredMap.get_assign] at h1
  by_cases hjk : j = k
  · simp [hjk] at h1
  · simp only [hjk, if_false] at h1
    exact (CredMap.get_eq_none_iff m j).mp h1 hj

theorem Ctx.Value_derive (c : Ctx) (ls : List Layer) :
    (c.derive ls).Value .singletonAWSCredentialsKey = c.Value .singletonAWSCredentialsKey := by
  induction ls generalizing c with
  | nil => rfl
  | cons l rest ih =>
    cases l with
    | value k v => simp [Ctx.derive, ih, Ctx.Value]
    | cancel => simp [Ctx.derive, ih, Ctx.Value]

theorem credentialsFromContext_derive (c : Ctx) (ls : List Layer) :
    credentialsFromContext (c.derive ls) = credentialsFromContext c := by
  simp [credentialsFromContext, Ctx.Value_derive]

/-- A first attach: the context holds no store, the record is valid. -/
theorem attach_first (h : Heap) (c : Ctx) (R : AWSCredentials) (hv : R.valid)
    (hc : credentialsFromContext c = (none, none)) :
    ContextWithAWSCredentials h (some c) (some R) =
      ⟨⟨h.next + 1, Function.update h.mem h.next ⟨R.id, [(R.id, R)]⟩⟩,
        some (.withValue c .singletonAWSCredentialsKey (.credentialsMapPtr (some h.next))),
        none⟩ := by
  obtain ⟨h1, h2⟩ := hv
  simp [ContextWithAWSCredentials, h1, h2, hc, Heap.alloc]

/-- A further attach: the context holds the store at `a`, the record is valid. -/
theorem attach_further (h : Heap) (c : Ctx) (R : AWSCredentials) (a : Addr) (hv : R.valid)
    (hc : credentialsFromContext c = (some a, none)) :
    ContextWithAWSCredentials h (some c) (some R) = ⟨h.assignCred a R.id R, some c, none⟩ := by
  obtain ⟨h1, h2⟩ := hv
  simp [ContextWithAWSCredentials, h1, h2, hc]

theorem credentialsFromContext_withValue (c : Ctx) (p : Option Addr) :
    credentialsFromContext (.withValue c .singletonAWSCredentialsKey (.credentialsMapPtr p)) =
      (p, none) := by
  simp [credentialsFromContext, Ctx.Value]

theorem credentialsFromContext_of_nil (c : Ctx)
    (hc : c.Value .singletonAWSCredentialsKey = .nil) :
    credentialsFromContext c = (none, none) := by
  simp [credentialsFromContext, hc]

/-! ## Claims -/

/-- C1 (round trip): for a record with both keys non-empty and a non-nil context
that holds no value under the reserved key, `ContextWithAWSCredentials` returns a
non-nil context and a nil error, and `GetCredentialsProvider` on the returned
context with the record's id returns a nil error and a provider whose retrieved
pair is the record's access key and secret key. -/
theorem C1_round_trip (h : Heap) (ctx : Ctx) (R : AWSCredentials)
    (hvalid : R.accessKeyID ≠ "" ∧ R.secretAccessKey ≠ "")
    (hfresh : ctx.Value .singletonAWSCredentialsKey = .nil) :
    (ContextWithAWSCredentials h (some ctx) (some R)).err = none ∧
    (ContextWithAWSCredentials h (some ctx) (some R)).ctx ≠ none ∧
    ∃ p, GetCredentialsProvider (ContextWithAWSCredentials h (some ctx) (some R)).heap
          (ContextWithAWSCredentials h (some ctx) (some R)).ctx R.id
          = .returned (some p, none) ∧
      p.Retrieve = (R.accessKeyID, R.secretAccessKey) := by
  rw [attach_first h ctx R hvalid (credentialsFromContext_of_nil ctx hfresh)]
  refine ⟨rfl, by simp, NewStaticCredentialsProvider R.accessKeyID R.secretAccessKey "", ?_, rfl⟩
  simp [GetCredentialsProvider, credentialsFromContext_withValue, CredMap.get]

theorem C1_round_trip_witness :
    (ContextWithAWSCredentials Heap.empty (some .background) (some ⟨"tenant-A", "AKIA", "s3cr3t"⟩)).err
      = none ∧
    (ContextWithAWSCredentials Heap.empty (some .background) (some ⟨"tenant-A", "AKIA", "s3cr3t"⟩)).ctx
      ≠ none ∧
    ∃ p, GetCredentialsProvider
          (ContextWithAWSCredentials Heap.empty (some .background)
            (some ⟨"tenant-A", "AKIA", "s3cr3t"⟩)).heap
          (ContextWithAWSCredentials Heap.empty (some .background)
            (some ⟨"tenant-A", "AKIA", "s3cr3t"⟩)).ctx "tenant-A"
          = .returned (some p, none) ∧
      p.Retrieve = ("AKIA", "s3cr3t") :=
  C1_round_trip Heap.empty .background ⟨"tenant-A", "AKIA", "s3cr3t"⟩ (by decide) (by decide)

/-- C2 (the first attached record is the default): for a valid record and a
non-nil context that holds no store, `GetDefaultCredentialsProvider` on the context
returned by `ContextWithAWSCredentials` returns a nil error and a provider whose
access key and secret key are the record's. -/
theorem C2_first_is_default (h : Heap) (ctx : Ctx) (R : AWSCredentials) (hvalid : R.valid)
    (hnostore : credentialsFromContext ctx = (none, none)) :
    ∃ p, GetDefaultCredentialsProvider (ContextWithAWSCredentials h (some ctx) (some R)).heap
          (ContextWithAWSCredentials h (some ctx) (some R)).ctx = .returned (some p, none) ∧
      p.AccessKeyID = R.accessKeyID ∧ p.SecretAccessKey = R.secretAccessKey := by
  rw [attach_first h ctx R hvalid hnostore]
  refine ⟨NewStaticCredentialsProvider R.accessKeyID R.secretAccessKey "", ?_, rfl, rfl⟩
  simp [GetDefaultCredentialsProvider, credentialsFromContext_withValue, CredMap.get]

theorem C2_first_is_default_witness :
    ∃ p, GetDefaultCredentialsProvider
          (ContextWithAWSCredentials Heap.empty (some .background) (some ⟨"SomeID", "A", "B"⟩)).heap
          (ContextWithAWSCredentials Heap.empty (some .background) (some ⟨"SomeID", "A", "B"⟩)).ctx
          = .returned (some p, none) ∧
      p.AccessKeyID = "A" ∧ p.SecretAccessKey = "B" :=
  C2_first_is_default Heap.empty .background ⟨"SomeID", "A", "B"⟩ (by decide) (by decide)

/-! ### Sequences of attach calls on one lineage -/

theorem attachAll_cons_further (g : Heap) (root : Ctx) (a : Addr) (ls : List Layer)
    (r : AWSCredentials) (rest : List (List Layer × AWSCredentials)) (hv : r.valid)
    (hroot : credentialsFromContext root = (some a, none)) :
    attachAll g root ((ls, r) :: rest) = attachAll (g.assignCred a r.id r) root rest := by
  have hd : credentialsFromContext (root.derive ls) = (some a, none) := by
    rw [credentialsFromContext_derive, hroot]
  simp [attachAll, attach_further g (root.derive ls) r a hv hd]

theorem lastWithID_of_ne (id : CredentialsID) (first : AWSCredentials)
    (rest : List AWSCredentials) (hne : ∀ r ∈ rest, r.id ≠ id) :
    lastWithID id first rest = first := by
  induction rest generalizing first with
  | nil => rfl
  | cons r rs ih =>
    have h1 : r.id ≠ id := hne r (List.mem_cons_self r rs)
    simp only [lastWithID, h1, if_false]
    exact ih first (fun x hx => hne x (List.mem_cons_of_mem r hx))

/-- The default entry of the store at `a` along a sequence of further attach calls. -/
theorem attachAll_default (root : Ctx) (a : Addr)
    (hroot : credentialsFromContext root = (some a, none))
    (calls : List (List Layer × AWSCredentials)) (hvs : ∀ call ∈ calls, call.2.valid)
    (g : Heap) (cur : AWSCredentials)
    (hcur : (g.mem a).cred.get (g.mem a).defaultID = some cur) :
    ((attachAll g root calls).mem a).defaultID = (g.mem a).defaultID ∧
    ((attachAll g root calls).mem a).cred.get (g.mem a).defaultID
      = some (lastWithID (g.mem a).defaultID cur (calls.map Prod.snd)) := by
  induction calls generalizing g cur with
  | nil => exact ⟨rfl, hcur⟩
  | cons call rest ih =>
    obtain ⟨ls, r⟩ := call
    have hv : r.valid := hvs (ls, r) (List.mem_cons_self _ _)
    have hrest : ∀ call ∈ rest, call.2.valid :=
      fun x hx => hvs x (List.mem_cons_of_mem _ hx)
    rw [attachAll_cons_further g root a ls r rest hv hroot]
    have hd : ((g.assignCred a r.id r).mem a).defaultID = (g.mem a).defaultID := by
      simp [Heap.assignCred]
    have hget : ((g.assignCred a r.id r).mem a).cred.get ((g.assignCred a r.id r).mem a).defaultID
        = some (if r.id = (g.mem a).defaultID then r else cur) := by
      by_cases hid : r.id = (g.mem a).defaultID
      · simp [Heap.assignCred, hid, CredMap.get_assign_same]
      · have hne : (g.mem a).defaultID ≠ r.id := fun e => hid e.symm
        simp [Heap.assignCred, hid, CredMap.get_assign_ne _ _ _ _ hne, hcur]
    have := ih hrest (g.assignCred a r.id r) _ hget
    rw [hd] at this
    simpa [lastWithID] using this

/-- C3, as amended (default stability): after a valid record R1 is attached first
to a context that holds no store, and any finite sequence of further valid records
is attached through contexts of the same lineage, `GetDefaultCredentialsProvider`
on every context of the lineage returns a nil error and the material of the last
record attached under R1's id; this is R1's own material when no later record
has R1's id. -/
theorem C3_default_stability (h : Heap) (ctx c1 : Ctx) (R1 : AWSCredentials)
    (calls : List (List Layer × AWSCredentials)) (ls : List Layer)
    (hvalid : R1.valid) (hnostore : credentialsFromContext ctx = (none, none))
    (hc1 : (ContextWithAWSCredentials h (some ctx) (some R1)).ctx = some c1)
    (hvs : ∀ call ∈ calls, call.2.valid) :
    GetDefaultCredentialsProvider
        (attachAll (ContextWithAWSCredentials h (some ctx) (some R1)).heap c1 calls)
        (some (c1.derive ls))
      = .returned (some (NewStaticCredentialsProvider
          (lastWithID R1.id R1 (calls.map Prod.snd)).accessKeyID
          (lastWithID R1.id R1 (calls.map Prod.snd)).secretAccessKey ""), none) ∧
    ((∀ call ∈ calls, call.2.id ≠ R1.id) → lastWithID R1.id R1 (calls.map Prod.snd) = R1) := by
  constructor
  · rw [attach_first h ctx R1 hvalid hnostore] at hc1 ⊢
    simp only [Option.some.injEq] at hc1
    subst hc1
    have hroot := credentialsFromContext_withValue ctx (some h.next)
    have h0 : ((⟨h.next + 1, Function.update h.mem h.next ⟨R1.id, [(R1.id, R1)]⟩⟩ : Heap).mem
        h.next) = ⟨R1.id, [(R1.id, R1)]⟩ := by simp
    have key := attachAll_default _ h.next hroot calls hvs
      ⟨h.next + 1, Function.update h.mem h.next ⟨R1.id, [(R1.id, R1)]⟩⟩ R1
      (by rw [h0]; simp [CredMap.get])
    rw [h0] at key
    obtain ⟨kd, kg⟩ := key
    simp only at kd kg
    simp only [GetDefaultCredentialsProvider, credentialsFromContext_derive, hroot, kd, kg]
  · intro hne
    apply lastWithID_of_ne
    intro r hr
    obtain ⟨call, hcall, rfl⟩ := List.mem_map.mp hr
    exact hne call hcall

theorem C3_default_stability_witness :
    GetDefaultCredentialsProvider
        (attachAll (ContextWithAWSCredentials Heap.empty (some .background)
            (some ⟨"tenant-A", "AKIA", "s3cr3t"⟩)).heap
          (.withValue .background .singletonAWSCredentialsKey (.credentialsMapPtr (some 0)))
          [([.cancel], ⟨"tenant-B", "AKIB", "other"⟩)])
        (some (Ctx.derive
          (.withValue .background .singletonAWSCredentialsKey (.credentialsMapPtr (some 0)))
          [.value "trace" (.other "string")]))
      = .returned (some (NewStaticCredentialsProvider
          (lastWithID "tenant-A" ⟨"tenant-A", "AKIA", "s3cr3t"⟩
            ([([Layer.cancel], (⟨"tenant-B", "AKIB", "other"⟩ : AWSCredentials))].map Prod.snd)).accessKeyID
          (lastWithID "tenant-A" ⟨"tenant-A", "AKIA", "s3cr3t"⟩
            ([([Layer.cancel], (⟨"tenant-B", "AKIB", "other"⟩ : AWSCredentials))].map Prod.snd)).secretAccessKey
          ""), none) ∧
    ((∀ call ∈ [([Layer.cancel], (⟨"tenant-B", "AKIB", "other"⟩ : AWSCredentials))],
        call.2.id ≠ "tenant-A") →
      lastWithID "tenant-A" ⟨"tenant-A", "AKIA", "s3cr3t"⟩
        ([([Layer.cancel], (⟨"tenant-B", "AKIB", "other"⟩ : AWSCredentials))].map Prod.snd)
        = ⟨"tenant-A", "AKIA", "s3cr3t"⟩) :=
  C3_default_stability Heap.empty .background
    (.withValue .background .singletonAWSCredentialsKey (.credentialsMapPtr (some 0)))
    ⟨"tenant-A", "AKIA", "s3cr3t"⟩ [([.cancel], ⟨"tenant-B", "AKIB", "other"⟩)]
    [.value "trace" (.other "string")] (by decide) (by decide) (by decide) (by decide)

/-- C3, as stated, fails: R1 = ("tenant-A", "AKIA", "s3cr3t") is attached first to
`context.Background()`, then the valid record R2 = ("tenant-A", "AKIB", "other"), of
the same id, is attached to the returned context; the default lookup then returns
R2's material and not R1's. -/
theorem C3_default_stability_counterexample :
    AWSCredentials.valid ⟨"tenant-A", "AKIA", "s3cr3t"⟩ ∧
    AWSCredentials.valid ⟨"tenant-A", "AKIB", "other"⟩ ∧
    credentialsFromContext .background = (none, none) ∧
    (ContextWithAWSCredentials Heap.empty (some .background)
        (some ⟨"tenant-A", "AKIA", "s3cr3t"⟩)).ctx
      = some (.withValue .background .singletonAWSCredentialsKey (.credentialsMapPtr (some 0))) ∧
    GetDefaultCredentialsProvider
        (attachAll (ContextWithAWSCredentials Heap.empty (some .background)
            (some ⟨"tenant-A", "AKIA", "s3cr3t"⟩)).heap
          (.withValue .background .singletonAWSCredentialsKey (.credentialsMapPtr (some 0)))
          [([], ⟨"tenant-A", "AKIB", "other"⟩)])
        (ContextWithAWSCredentials Heap.empty (some .background)
            (some ⟨"tenant-A", "AKIA", "s3cr3t"⟩)).ctx
      = .returned (some (NewStaticCredentialsProvider "AKIB" "other" ""), none) ∧
    NewStaticCredentialsProvider "AKIB" "other" "" ≠
      NewStaticCredentialsProvider "AKIA" "s3cr3t" "" := by
  decide

/-- C4 (attach error taxonomy): `ContextWithAWSCredentials` returns
ErrContextMustNotBeNil exactly when the context is nil, ErrCredentialsMustNotBeNil
exactly when the context is non-nil and the record is nil,
ErrInvalidCredentialsProvided exactly when both are non-nil and the access key or the
secret key is empty; the three errors are pairwise distinct; and the error is nil
exactly in the remaining case (context and record non-nil, both keys non-empty). -/
theorem C4_attach_error_taxonomy (h : Heap) (ctx : Context) (R : Option AWSCredentials) :
    ((ContextWithAWSCredentials h ctx R).err = some .ErrContextMustNotBeNil ↔ ctx = none) ∧
    ((ContextWithAWSCredentials h ctx R).err = some .ErrCredentialsMustNotBeNil ↔
      ctx ≠ none ∧ R = none) ∧
    ((ContextWithAWSCredentials h ctx R).err = some .ErrInvalidCredentialsProvided ↔
      ctx ≠ none ∧ ∃ r, R = some r ∧ (r.accessKeyID = "" ∨ r.secretAccessKey = "")) ∧
    (Error.ErrContextMustNotBeNil ≠ Error.ErrCredentialsMustNotBeNil ∧
      Error.ErrContextMustNotBeNil ≠ Error.ErrInvalidCredentialsProvided ∧
      Error.ErrCredentialsMustNotBeNil ≠ Error.ErrInvalidCredentialsProvided) ∧
    ((ContextWithAWSCredentials h ctx R).err = none ↔
      ctx ≠ none ∧ ∃ r, R = some r ∧ r.accessKeyID ≠ "" ∧ r.secretAccessKey ≠ "") := by
  refine ⟨?_, ?_, ?_, by decide, ?_⟩ <;>
  · cases ctx with
    | none => simp [ContextWithAWSCredentials]
    | some c =>
      cases R with
      | none => simp [ContextWithAWSCredentials]
      | some r =>
        by_cases hk : r.accessKeyID = ""
        · simp [ContextWithAWSCredentials, hk]
        · by_cases hs : r.secretAccessKey = ""
          · simp [ContextWithAWSCredentials, hs]
          · simp only [ContextWithAWSCredentials, hk, hs, or_self, if_false]
            split <;> simp [hk, hs]

/-- C5 (a failed attach is atomic): whenever `ContextWithAWSCredentials` returns a
non-nil error, the context it returns is the supplied one and the memory is
unchanged (every store keeps its default id and its records), so that every
`GetCredentialsProvider` and `GetDefaultCredentialsProvider` result is the same
after the call as before. -/
theorem C5_failed_attach_atomic (h : Heap) (ctx : Context) (R : Option AWSCredentials)
    (herr : (ContextWithAWSCredentials h ctx R).err ≠ none) :
    (ContextWithAWSCredentials h ctx R).ctx = ctx ∧
    (ContextWithAWSCredentials h ctx R).heap = h ∧
    (∀ a, ((ContextWithAWSCredentials h ctx R).heap.mem a).defaultID = (h.mem a).defaultID ∧
      ((ContextWithAWSCredentials h ctx R).heap.mem a).cred = (h.mem a).cred) ∧
    (∀ c id, GetCredentialsProvider (ContextWithAWSCredentials h ctx R).heap c id
      = GetCredentialsProvider h c id) ∧
    (∀ c, GetDefaultCredentialsProvider (ContextWithAWSCredentials h ctx R).heap c
      = GetDefaultCredentialsProvider h c) := by
  have hheap : (ContextWithAWSCredentials h ctx R).ctx = ctx ∧
      (ContextWithAWSCredentials h ctx R).heap = h := by
    cases ctx with
    | none => simp [ContextWithAWSCredentials]
    | some c =>
      cases R with
      | none => simp [ContextWithAWSCredentials]
      | some r =>
        by_cases hv : r.accessKeyID = "" ∨ r.secretAccessKey = ""
        · simp [ContextWithAWSCredentials, hv]
        · exfalso
          apply herr
          simp only [ContextWithAWSCredentials, hv, if_false]
          split <;> rfl
  obtain ⟨h1, h2⟩ := hheap
  refine ⟨h1, h2, ?_, ?_, ?_⟩
  · intro a; rw [h2]; exact ⟨rfl, rfl⟩
  · intro c id; rw [h2]
  · intro c; rw [h2]

theorem C5_failed_attach_atomic_witness :
    (ContextWithAWSCredentials
        (ContextWithAWSCredentials Heap.empty (some .background) (some ⟨"tenant-A", "AKIA", "s3cr3t"⟩)).heap
        (some (.withValue .background .singletonAWSCredentialsKey (.credentialsMapPtr (some 0))))
        (some ⟨"tenant-B", "AKIB", ""⟩)).err ≠ none ∧
    ((ContextWithAWSCredentials
        (ContextWithAWSCredentials Heap.empty (some .background) (some ⟨"tenant-A", "AKIA", "s3cr3t"⟩)).heap
        (some (.withValue .background .singletonAWSCredentialsKey (.credentialsMapPtr (some 0))))
        (some ⟨"tenant-B", "AKIB", ""⟩)).ctx
      = some (.withValue .background .singletonAWSCredentialsKey (.credentialsMapPtr (some 0))) ∧
    (ContextWithAWSCredentials
        (ContextWithAWSCredentials Heap.empty (some .background) (some ⟨"tenant-A", "AKIA", "s3cr3t"⟩)).heap
        (some (.withValue .background .singletonAWSCredentialsKey (.credentialsMapPtr (some 0))))
        (some ⟨"tenant-B", "AKIB", ""⟩)).heap
      = (ContextWithAWSCredentials Heap.empty (some .background)
          (some ⟨"tenant-A", "AKIA", "s3cr3t"⟩)).heap ∧
    (∀ a, ((ContextWithAWSCredentials
        (ContextWithAWSCredentials Heap.empty (some .background) (some ⟨"tenant-A", "AKIA", "s3cr3t"⟩)).heap
        (some (.withValue .background .singletonAWSCredentialsKey (.credentialsMapPtr (some 0))))
        (some ⟨"tenant-B", "AKIB", ""⟩)).heap.mem a).defaultID
        = ((ContextWithAWSCredentials Heap.empty (some .background)
          (some ⟨"tenant-A", "AKIA", "s3cr3t"⟩)).heap.mem a).defaultID ∧
      ((ContextWithAWSCredentials
        (ContextWithAWSCredentials Heap.empty (some .background) (some ⟨"tenant-A", "AKIA", "s3cr3t"⟩)).heap
        (some (.withValue .background .singletonAWSCredentialsKey (.credentialsMapPtr (some 0))))
        (some ⟨"tenant-B", "AKIB", ""⟩)).heap.mem a).cred
        = ((ContextWithAWSCredentials Heap.empty (some .background)
          (some ⟨"tenant-A", "AKIA", "s3cr3t"⟩)).heap.mem a).cred) ∧
    (∀ c id, GetCredentialsProvider (ContextWithAWSCredentials
        (ContextWithAWSCredentials Heap.empty (some .background) (some ⟨"tenant-A", "AKIA", "s3cr3t"⟩)).heap
        (some (.withValue .background .singletonAWSCredentialsKey (.credentialsMapPtr (some 0))))
        (some ⟨"tenant-B", "AKIB", ""⟩)).heap c id
      = GetCredentialsProvider (ContextWithAWSCredentials Heap.empty (some .background)
          (some ⟨"tenant-A", "AKIA", "s3cr3t"⟩)).heap c id) ∧
    (∀ c, GetDefaultCredentialsProvider (ContextWithAWSCredentials
        (ContextWithAWSCredentials Heap.empty (some .background) (some ⟨"tenant-A", "AKIA", "s3cr3t"⟩)).heap
        (some (.withValue .background .singletonAWSCredentialsKey (.credentialsMapPtr (some 0))))
        (some ⟨"tenant-B", "AKIB", ""⟩)).heap c
      = GetDefaultCredentialsProvider (ContextWithAWSCredentials Heap.empty (some .background)
          (some ⟨"tenant-A", "AKIA", "s3cr3t"⟩)).heap c)) :=
  ⟨by decide, C5_failed_attach_atomic _ _ _ (by decide)⟩

/-- A lookup through a non-nil context that holds no store reads `m.cred` through a
nil `m`: both lookup functions panic. -/
theorem lookup_without_store_panics (h : Heap) (c : Ctx)
    (hc : credentialsFromContext c = (none, none)) :
    (∀ id, GetCredentialsProvider h (some c) id = .panicked .nilPointerDereference) ∧
    GetDefaultCredentialsProvider h (some c) = .panicked .nilPointerDereference := by
  simp [GetCredentialsProvider, GetDefaultCredentialsProvider, hc]

/-- C6 (no scope present), at the failing input: on `context.Background()`, on which
nothing was ever attached, `GetCredentialsProvider(ctx, "tenant-A")` and
`GetDefaultCredentialsProvider(ctx)` do not return an error: `credentialsFromContext`
returns a nil store and a nil error, and reading the nil store panics. -/
theorem C6_no_scope_panics :
    credentialsFromContext .background = (none, none) ∧
    GetCredentialsProvider Heap.empty (some .background) "tenant-A"
      = .panicked .nilPointerDereference ∧
    GetDefaultCredentialsProvider Heap.empty (some .background)
      = .panicked .nilPointerDereference := by
  decide

/-- The ids missing from the store at `a` after a sequence of further attach calls
are those missing before that no call attached. -/
theorem attachAll_get_eq_none (root : Ctx) (a : Addr)
    (hroot : credentialsFromContext root = (some a, none))
    (calls : List (List Layer × AWSCredentials)) (hvs : ∀ call ∈ calls, call.2.valid)
    (g : Heap) (j : CredentialsID) :
    ((attachAll g root calls).mem a).cred.get j = none ↔
      (g.mem a).cred.get j = none ∧ ∀ call ∈ calls, call.2.id ≠ j := by
  induction calls generalizing g with
  | nil => simp [attachAll]
  | cons call rest ih =>
    obtain ⟨ls, r⟩ := call
    have hv : r.valid := hvs (ls, r) (List.mem_cons_self _ _)
    have hrest : ∀ call ∈ rest, call.2.valid :=
      fun x hx => hvs x (List.mem_cons_of_mem _ hx)
    rw [attachAll_cons_further g root a ls r rest hv hroot, ih hrest]
    have hget : ((g.assignCred a r.id r).mem a).cred.get j
        = if j = r.id then some r else (g.mem a).cred.get j := by
      simp [Heap.assignCred, CredMap.get_assign]
    rw [hget]
    by_cases hj : j = r.id
    · subst hj
      simp
    · have hj2 : ¬ r.id = j := fun e => hj e.symm
      simp [hj, hj2]

/-- C7 (unknown id): a store is built by attaching a valid record R1 to a context
that holds no store and then any valid records through contexts of the lineage.
For an id that none of these records has, `GetCredentialsProvider` through every
context of the lineage returns a nil provider and ErrUnknownCredentialsID; for an id
that one of them has, it returns a provider and a nil error, so not
ErrUnknownCredentialsID. -/
theorem C7_unknown_id (h : Heap) (ctx c1 : Ctx) (R1 : AWSCredentials)
    (calls : List (List Layer × AWSCredentials)) (ls : List Layer) (id known : CredentialsID)
    (hvalid : R1.valid) (hnostore : credentialsFromContext ctx = (none, none))
    (hc1 : (ContextWithAWSCredentials h (some ctx) (some R1)).ctx = some c1)
    (hvs : ∀ call ∈ calls, call.2.valid)
    (hid : id ∉ R1.id :: calls.map (fun call => call.2.id))
    (hknown : known ∈ R1.id :: calls.map (fun call => call.2.id)) :
    GetCredentialsProvider
        (attachAll (ContextWithAWSCredentials h (some ctx) (some R1)).heap c1 calls)
        (some (c1.derive ls)) id
      = .returned (none, some .ErrUnknownCredentialsID) ∧
    ∃ p, GetCredentialsProvider
        (attachAll (ContextWithAWSCredentials h (some ctx) (some R1)).heap c1 calls)
        (some (c1.derive ls)) known
      = .returned (some p, none) := by
  rw [attach_first h ctx R1 hvalid hnostore] at hc1 ⊢
  simp only [Option.some.injEq] at hc1
  subst hc1
  have hroot := credentialsFromContext_withValue ctx (some h.next)
  have key := fun j => attachAll_get_eq_none _ h.next hroot calls hvs
    ⟨h.next + 1, Function.update h.mem h.next ⟨R1.id, [(R1.id, R1)]⟩⟩ j
  have h0 : ∀ j, ((⟨h.next + 1, Function.update h.mem h.next ⟨R1.id, [(R1.id, R1)]⟩⟩ : Heap).mem
      h.next).cred.get j = if R1.id = j then some R1 else none := by
    intro j
    simp [CredMap.get]
  constructor
  · have h1 : ¬ R1.id = id := fun e => hid (by simp [e])
    have h2 : ∀ call ∈ calls, call.2.id ≠ id := by
      intro call hcall e
      exact hid (List.mem_cons_of_mem _ (List.mem_map.mpr ⟨call, hcall, e⟩))
    have hnone := (key id).mpr ⟨by rw [h0]; simp [h1], h2⟩
    simp only [GetCredentialsProvider, credentialsFromContext_derive, hroot, hnone]
  · have hsome : ((attachAll ⟨h.next + 1, Function.update h.mem h.next ⟨R1.id, [(R1.id, R1)]⟩⟩
        (.withValue ctx .singletonAWSCredentialsKey (.credentialsMapPtr (some h.next)))
        calls).mem h.next).cred.get known ≠ none := by
      intro hnone
      obtain ⟨k1, k2⟩ := (key known).mp hnone
      rw [h0] at k1
      rcases List.mem_cons.mp hknown with e | hmem
      · simp [e] at k1
      · obtain ⟨call, hcall, e⟩ := List.mem_map.mp hmem
        exact k2 call hcall e
    obtain ⟨v, hv⟩ := Option.ne_none_iff_exists'.mp hsome
    exact ⟨NewStaticCredentialsProvider v.accessKeyID v.secretAccessKey "", by
      simp only [GetCredentialsProvider, credentialsFromContext_derive, hroot, hv]⟩

theorem C7_unknown_id_witness :
    GetCredentialsProvider
        (attachAll (ContextWithAWSCredentials Heap.empty (some .background)
            (some ⟨"tenant-A", "AKIA", "s3cr3t"⟩)).heap
          (.withValue .background .singletonAWSCredentialsKey (.credentialsMapPtr (some 0)))
          [([.cancel], ⟨"tenant-B", "AKIB", "other"⟩)])
        (some (Ctx.derive
          (.withValue .background .singletonAWSCredentialsKey (.credentialsMapPtr (some 0)))
          [])) "tenant-C"
      = .returned (none, some .ErrUnknownCredentialsID) ∧
    ∃ p, GetCredentialsProvider
        (attachAll (ContextWithAWSCredentials Heap.empty (some .background)
            (some ⟨"tenant-A", "AKIA", "s3cr3t"⟩)).heap
          (.withValue .background .singletonAWSCredentialsKey (.credentialsMapPtr (some 0)))
          [([.cancel], ⟨"tenant-B", "AKIB", "other"⟩)])
        (some (Ctx.derive
          (.withValue .background .singletonAWSCredentialsKey (.credentialsMapPtr (some 0)))
          [])) "tenant-B"
      = .returned (some p, none) :=
  C7_unknown_id Heap.empty .background
    (.withValue .background .singletonAWSCredentialsKey (.credentialsMapPtr (some 0)))
    ⟨"tenant-A", "AKIA", "s3cr3t"⟩ [([.cancel], ⟨"tenant-B", "AKIB", "other"⟩)] []
    "tenant-C" "tenant-B" (by decide) (by decide) (by decide) (by decide) (by decide)
    (by decide)

/-- C8 (sharing): when a context holds a store, a successful attach of a valid
record R2 through any context derived from it makes R2 resolvable through every
context derived from that store-holding context, the context itself included:
`GetCredentialsProvider` with R2's id returns R2's access key and secret key. -/
theorem C8_sharing (h : Heap) (anc : Ctx) (a : Addr) (ls2 : List Layer) (R2 : AWSCredentials)
    (hstore : credentialsFromContext anc = (some a, none)) (hvalid : R2.valid) :
    (ContextWithAWSCredentials h (some (anc.derive ls2)) (some R2)).err = none ∧
    ∀ ls, GetCredentialsProvider
        (ContextWithAWSCredentials h (some (anc.derive ls2)) (some R2)).heap
        (some (anc.derive ls)) R2.id
      = .returned (some (NewStaticCredentialsProvider R2.accessKeyID R2.secretAccessKey ""),
          none) := by
  have hd : credentialsFromContext (anc.derive ls2) = (some a, none) := by
    rw [credentialsFromContext_derive, hstore]
  rw [attach_further h (anc.derive ls2) R2 a hvalid hd]
  refine ⟨rfl, fun ls => ?_⟩
  simp [GetCredentialsProvider, credentialsFromContext_derive, hstore, Heap.assignCred,
    CredMap.get_assign_same]

theorem C8_sharing_witness :
    (ContextWithAWSCredentials
        (ContextWithAWSCredentials Heap.empty (some .background)
          (some ⟨"tenant-A", "AKIA", "s3cr3t"⟩)).heap
        (some (Ctx.derive
          (.withValue .background .singletonAWSCredentialsKey (.credentialsMapPtr (some 0)))
          [.value "trace" (.other "string"), .cancel]))
        (some ⟨"tenant-B", "AKIB", "other"⟩)).err = none ∧
    ∀ ls, GetCredentialsProvider
        (ContextWithAWSCredentials
          (ContextWithAWSCredentials Heap.empty (some .background)
            (some ⟨"tenant-A", "AKIA", "s3cr3t"⟩)).heap
          (some (Ctx.derive
            (.withValue .background .singletonAWSCredentialsKey (.credentialsMapPtr (some 0)))
            [.value "trace" (.other "string"), .cancel]))
          (some ⟨"tenant-B", "AKIB", "other"⟩)).heap
        (some (Ctx.derive
          (.withValue .background .singletonAWSCredentialsKey (.credentialsMapPtr (some 0)))
          ls)) "tenant-B"
      = .returned (some (NewStaticCredentialsProvider "AKIB" "other" ""), none) :=
  C8_sharing _ (.withValue .background .singletonAWSCredentialsKey (.credentialsMapPtr (some 0)))
    0 [.value "trace" (.other "string"), .cancel] ⟨"tenant-B", "AKIB", "other"⟩
    (by decide) (by decide)

/-! ### Layers and the store invariant -/

/-- C9 (attach layering rule), for a valid record R: on a context that holds no
store the call returns a new child of that context, whose reserved key holds the
address of a store created by the call (the first free address, now allocated,
with records {R.id: R} and default R.id, every other object left as it was); on a
context that holds a store it returns the supplied context, which holds the same
store address, and allocates nothing. Hence after any attach call, with any record
(valid, invalid or nil), a context that held a store is returned as it is and
still holds that store. -/
theorem C9_attach_layering (h : Heap) (ctx0 ctx1 : Ctx) (a : Addr) (R : AWSCredentials)
    (R1 : Option AWSCredentials) (hvalid : R.valid)
    (h0 : credentialsFromContext ctx0 = (none, none))
    (h1 : credentialsFromContext ctx1 = (some a, none)) :
    ((ContextWithAWSCredentials h (some ctx0) (some R)).ctx
        = some (.withValue ctx0 .singletonAWSCredentialsKey (.credentialsMapPtr (some h.next))) ∧
      credentialsFromContext
          (.withValue ctx0 .singletonAWSCredentialsKey (.credentialsMapPtr (some h.next)))
        = (some h.next, none) ∧
      (ContextWithAWSCredentials h (some ctx0) (some R)).heap.next = h.next + 1 ∧
      (ContextWithAWSCredentials h (some ctx0) (some R)).heap.mem h.next
        = ⟨R.id, [(R.id, R)]⟩ ∧
      ∀ b, b ≠ h.next →
        (ContextWithAWSCredentials h (some ctx0) (some R)).heap.mem b = h.mem b) ∧
    ((ContextWithAWSCredentials h (some ctx1) (some R)).ctx = some ctx1 ∧
      (ContextWithAWSCredentials h (some ctx1) (some R)).err = none ∧
      (ContextWithAWSCredentials h (some ctx1) (some R)).heap.next = h.next) ∧
    (∃ c, (ContextWithAWSCredentials h (some ctx1) R1).ctx = some c ∧
      credentialsFromContext c = (some a, none)) := by
  refine ⟨?_, ?_, ?_⟩
  · rw [attach_first h ctx0 R hvalid h0]
    refine ⟨rfl, credentialsFromContext_withValue ctx0 (some h.next), rfl, by simp, ?_⟩
    intro b hb
    simp [Function.update_noteq hb]
  · rw [attach_further h ctx1 R a hvalid h1]
    exact ⟨rfl, rfl, rfl⟩
  · refine ⟨ctx1, ?_, h1⟩
    cases R1 with
    | none => simp [ContextWithAWSCredentials]
    | some r =>
      by_cases hv : r.accessKeyID = "" ∨ r.secretAccessKey = ""
      · simp [ContextWithAWSCredentials, hv]
      · simp [ContextWithAWSCredentials, hv, h1]

theorem C9_attach_layering_witness :
    ((ContextWithAWSCredentials
          (ContextWithAWSCredentials Heap.empty (some .background)
            (some ⟨"tenant-A", "AKIA", "s3cr3t"⟩)).heap
          (some (.withCancel .background)) (some ⟨"tenant-B", "AKIB", "other"⟩)).ctx
        = some (.withValue (.withCancel .background) .singletonAWSCredentialsKey
            (.credentialsMapPtr (some (ContextWithAWSCredentials Heap.empty (some .background)
              (some ⟨"tenant-A", "AKIA", "s3cr3t"⟩)).heap.next))) ∧
      credentialsFromContext
          (.withValue (.withCancel .background) .singletonAWSCredentialsKey
            (.credentialsMapPtr (some (ContextWithAWSCredentials Heap.empty (some .background)
              (some ⟨"tenant-A", "AKIA", "s3cr3t"⟩)).heap.next)))
        = (some (ContextWithAWSCredentials Heap.empty (some .background)
              (some ⟨"tenant-A", "AKIA", "s3cr3t"⟩)).heap.next, none) ∧
      (ContextWithAWSCredentials
          (ContextWithAWSCredentials Heap.empty (some .background)
            (some ⟨"tenant-A", "AKIA", "s3cr3t"⟩)).heap
          (some (.withCancel .background)) (some ⟨"tenant-B", "AKIB", "other"⟩)).heap.next
        = (ContextWithAWSCredentials Heap.empty (some .background)
            (some ⟨"tenant-A", "AKIA", "s3cr3t"⟩)).heap.next + 1 ∧
      (ContextWithAWSCredentials
          (ContextWithAWSCredentials Heap.empty (some .background)
            (some ⟨"tenant-A", "AKIA", "s3cr3t"⟩)).heap
          (some (.withCancel .background)) (some ⟨"tenant-B", "AKIB", "other"⟩)).heap.mem
          (ContextWithAWSCredentials Heap.empty (some .background)
            (some ⟨"tenant-A", "AKIA", "s3cr3t"⟩)).heap.next
        = ⟨"tenant-B", [("tenant-B", ⟨"tenant-B", "AKIB", "other"⟩)]⟩ ∧
      ∀ b, b ≠ (ContextWithAWSCredentials Heap.empty (some .background)
            (some ⟨"tenant-A", "AKIA", "s3cr3t"⟩)).heap.next →
        (ContextWithAWSCredentials
          (ContextWithAWSCredentials Heap.empty (some .background)
            (some ⟨"tenant-A", "AKIA", "s3cr3t"⟩)).heap
          (some (.withCancel .background)) (some ⟨"tenant-B", "AKIB", "other"⟩)).heap.mem b
        = (ContextWithAWSCredentials Heap.empty (some .background)
            (some ⟨"tenant-A", "AKIA", "s3cr3t"⟩)).heap.mem b) ∧
    ((ContextWithAWSCredentials
          (ContextWithAWSCredentials Heap.empty (some .background)
            (some ⟨"tenant-A", "AKIA", "s3cr3t"⟩)).heap
          (some (.withValue .background .singletonAWSCredentialsKey
            (.credentialsMapPtr (some 0)))) (some ⟨"tenant-B", "AKIB", "other"⟩)).ctx
        = some (.withValue .background .singletonAWSCredentialsKey
            (.credentialsMapPtr (some 0))) ∧
      (ContextWithAWSCredentials
          (ContextWithAWSCredentials Heap.empty (some .background)
            (some ⟨"tenant-A", "AKIA", "s3cr3t"⟩)).heap
          (some (.withValue .background .singletonAWSCredentialsKey
            (.credentialsMapPtr (some 0)))) (some ⟨"tenant-B", "AKIB", "other"⟩)).err = none ∧
      (ContextWithAWSCredentials
          (ContextWithAWSCredentials Heap.empty (some .background)
            (some ⟨"tenant-A", "AKIA", "s3cr3t"⟩)).heap
          (some (.withValue .background .singletonAWSCredentialsKey
            (.credentialsMapPtr (some 0)))) (some ⟨"tenant-B", "AKIB", "other"⟩)).heap.next
        = (ContextWithAWSCredentials Heap.empty (some .background)
            (some ⟨"tenant-A", "AKIA", "s3cr3t"⟩)).heap.next) ∧
    (∃ c, (ContextWithAWSCredentials
          (ContextWithAWSCredentials Heap.empty (some .background)
            (some ⟨"tenant-A", "AKIA", "s3cr3t"⟩)).heap
          (some (.withValue .background .singletonAWSCredentialsKey
            (.credentialsMapPtr (some 0)))) (some ⟨"tenant-C", "", "none"⟩)).ctx = some c ∧
      credentialsFromContext c = (some 0, none)) :=
  C9_attach_layering
    (ContextWithAWSCredentials Heap.empty (some .background)
      (some ⟨"tenant-A", "AKIA", "s3cr3t"⟩)).heap
    (.withCancel .background)
    (.withValue .background .singletonAWSCredentialsKey (.credentialsMapPtr (some 0)))
    0 ⟨"tenant-B", "AKIB", "other"⟩ (some ⟨"tenant-C", "", "none"⟩)
    (by decide) (by decide) (by decide)

theorem Heap.wellFormed_empty : Heap.empty.wellFormed := by
  intro a ha
  simp [Heap.empty] at ha

theorem ContextWithAWSCredentials_wellFormed (h : Heap) (ctx : Context)
    (R : Option AWSCredentials) (hw : h.wellFormed) :
    (ContextWithAWSCredentials h ctx R).heap.wellFormed := by
  cases ctx with
  | none => simpa [ContextWithAWSCredentials] using hw
  | some c =>
    cases R with
    | none => simpa [ContextWithAWSCredentials] using hw
    | some r =>
      by_cases hv : r.accessKeyID = "" ∨ r.secretAccessKey = ""
      · simpa [ContextWithAWSCredentials, hv] using hw
      · simp only [ContextWithAWSCredentials, hv, if_false]
        split
        · exact hw
        · intro a ha
          simp only [Heap.alloc] at ha ⊢
          by_cases hnew : a = h.next
          · subst hnew
            simp [CredMap.keys]
          · have hlt : a < h.next := Nat.lt_of_le_of_ne (Nat.lt_succ_iff.mp ha) hnew
            simpa [Function.update_noteq hnew] using hw a hlt
        · rename_i m _
          intro a ha
          simp only [Heap.assignCred] at ha ⊢
          by_cases hm : a = m
          · subst hm
            simp only [Function.update_same]
            exact ⟨CredMap.assign_ne_nil _ _ _,
              CredMap.mem_keys_assign _ _ _ _ (hw a ha).2⟩
          · simpa [Function.update_noteq hm] using hw a ha

theorem attachCalls_wellFormed (calls : List (Context × Option AWSCredentials)) (h : Heap)
    (hw : h.wellFormed) : (attachCalls h calls).wellFormed := by
  induction calls generalizing h with
  | nil => exact hw
  | cons call rest ih =>
    obtain ⟨ctx, r⟩ := call
    exact ih _ (ContextWithAWSCredentials_wellFormed h ctx r hw)

/-- C10 (store well-formedness): after any sequence of `ContextWithAWSCredentials`
calls that starts with no store in memory, every store that exists has a non-empty
records map and a defaultID that is a key of that map; hence on every context that
holds such a store `GetDefaultCredentialsProvider` returns a provider and a nil
error, never ErrUnknownCredentialsID. -/
theorem C10_store_well_formed (calls : List (Context × Option AWSCredentials)) (a : Addr)
    (c : Ctx) (ha : a < (attachCalls Heap.empty calls).next)
    (hc : credentialsFromContext c = (some a, none)) :
    ((attachCalls Heap.empty calls).mem a).cred ≠ [] ∧
    ((attachCalls Heap.empty calls).mem a).defaultID
      ∈ ((attachCalls Heap.empty calls).mem a).cred.keys ∧
    ∃ p, GetDefaultCredentialsProvider (attachCalls Heap.empty calls) (some c)
      = .returned (some p, none) := by
  obtain ⟨hne, hkey⟩ := attachCalls_wellFormed calls Heap.empty Heap.wellFormed_empty a ha
  refine ⟨hne, hkey, ?_⟩
  have hsome : ((attachCalls Heap.empty calls).mem a).cred.get
      ((attachCalls Heap.empty calls).mem a).defaultID ≠ none :=
    fun hnone => (CredMap.get_eq_none_iff _ _).mp hnone hkey
  obtain ⟨v, hv⟩ := Option.ne_none_iff_exists'.mp hsome
  exact ⟨NewStaticCredentialsProvider v.accessKeyID v.secretAccessKey "", by
    simp only [GetDefaultCredentialsProvider, hc, hv]⟩

theorem C10_store_well_formed_witness :
    ((attachCalls Heap.empty
        [(some .background, some ⟨"tenant-A", "AKIA", "s3cr3t"⟩),
         (some (.withValue .background .singletonAWSCredentialsKey
            (.credentialsMapPtr (some 0))), some ⟨"tenant-B", "AKIB", "other"⟩),
         (none, some ⟨"tenant-C", "AKIC", "more"⟩)]).mem 0).cred ≠ [] ∧
    ((attachCalls Heap.empty
        [(some .background, some ⟨"tenant-A", "AKIA", "s3cr3t"⟩),
         (some (.withValue .background .singletonAWSCredentialsKey
            (.credentialsMapPtr (some 0))), some ⟨"tenant-B", "AKIB", "other"⟩),
         (none, some ⟨"tenant-C", "AKIC", "more"⟩)]).mem 0).defaultID
      ∈ ((attachCalls Heap.empty
        [(some .background, some ⟨"tenant-A", "AKIA", "s3cr3t"⟩),
         (some (.withValue .background .singletonAWSCredentialsKey
            (.credentialsMapPtr (some 0))), some ⟨"tenant-B", "AKIB", "other"⟩),
         (none, some ⟨"tenant-C", "AKIC", "more"⟩)]).mem 0).cred.keys ∧
    ∃ p, GetDefaultCredentialsProvider (attachCalls Heap.empty
        [(some .background, some ⟨"tenant-A", "AKIA", "s3cr3t"⟩),
         (some (.withValue .background .singletonAWSCredentialsKey
            (.credentialsMapPtr (some 0))), some ⟨"tenant-B", "AKIB", "other"⟩),
         (none, some ⟨"tenant-C", "AKIC", "more"⟩)])
        (some (.withCancel (.withValue .background .singletonAWSCredentialsKey
            (.credentialsMapPtr (some 0)))))
      = .returned (some p, none) :=
  C10_store_well_formed
    [(some .background, some ⟨"tenant-A", "AKIA", "s3cr3t"⟩),
     (some (.withValue .background .singletonAWSCredentialsKey
        (.credentialsMapPtr (some 0))), some ⟨"tenant-B", "AKIB", "other"⟩),
     (none, some ⟨"tenant-C", "AKIC", "more"⟩)]
    0 (.withCancel (.withValue .background .singletonAWSCredentialsKey
        (.credentialsMapPtr (some 0)))) (by decide) (by decide)

/-! ### Validity of the stored records -/

theorem CredMap.mem_assign (m : CredMap) (k : CredentialsID) (v : AWSCredentials)
    (e : CredentialsID × AWSCredentials) (he : e ∈ m.assign k v) : e ∈ m ∨ e = (k, v) := by
  induction m with
  | nil =>
    right
    simpa [CredMap.assign] using he
  | cons x rest ih =>
    obtain ⟨k', v'⟩ := x
    by_cases hk : k' = k
    · simp only [CredMap.assign, hk, if_true, List.mem_cons] at he
      rcases he with he | he
      · exact Or.inr he
      · exact Or.inl (List.mem_cons_of_mem _ he)
    · simp only [CredMap.assign, hk, if_false, List.mem_cons] at he
      rcases he with he | he
      · exact Or.inl (by rw [he]; exact List.mem_cons_self _ _)
      · rcases ih he with h1 | h1
        · exact Or.inl (List.mem_cons_of_mem _ h1)
        · exact Or.inr h1

theorem CredMap.mem_of_get (m : CredMap) (k : CredentialsID) (v : AWSCredentials)
    (hg : m.get k = some v) : (k, v) ∈ m := by
  induction m with
  | nil => simp [CredMap.get] at hg
  | cons x rest ih =>
    obtain ⟨k', v'⟩ := x
    by_cases hk : k' = k
    · simp only [CredMap.get, hk, if_true, Option.some.injEq] at hg
      rw [hk, hg]
      exact List.mem_cons_self _ _
    · simp only [CredMap.get, hk, if_false] at hg
      exact List.mem_cons_of_mem _ (ih hg)

theorem Heap.recordsValid_empty : Heap.empty.recordsValid := by
  intro a ha
  simp [Heap.empty] at ha

theorem ContextWithAWSCredentials_recordsValid (h : Heap) (ctx : Context)
    (R : Option AWSCredentials) (hw : h.recordsValid) :
    (ContextWithAWSCredentials h ctx R).heap.recordsValid := by
  cases ctx with
  | none => simpa [ContextWithAWSCredentials] using hw
  | some c =>
    cases R with
    | none => simpa [ContextWithAWSCredentials] using hw
    | some r =>
      by_cases hv : r.accessKeyID = "" ∨ r.secretAccessKey = ""
      · simpa [ContextWithAWSCredentials, hv] using hw
      · have hvalid : r.valid := by
          simp only [not_or] at hv
          exact hv
        simp only [ContextWithAWSCredentials, hv, if_false]
        split
        · exact hw
        · intro a ha e he
          simp only [Heap.alloc] at ha he
          by_cases hnew : a = h.next
          · subst hnew
            simp only [Function.update_same, List.mem_singleton] at he
            subst he
            exact ⟨hvalid, rfl⟩
          · have hlt : a < h.next := Nat.lt_of_le_of_ne (Nat.lt_succ_iff.mp ha) hnew
            rw [Function.update_noteq hnew] at he
            exact hw a hlt e he
        · rename_i m _
          intro a ha e he
          simp only [Heap.assignCred] at ha he
          by_cases hm : a = m
          · subst hm
            simp only [Function.update_same] at he
            rcases CredMap.mem_assign _ _ _ _ he with h1 | h1
            · exact hw a ha e h1
            · subst h1
              exact ⟨hvalid, rfl⟩
          · rw [Function.update_noteq hm] at he
            exact hw a ha e he

theorem attachCalls_recordsValid (calls : List (Context × Option AWSCredentials)) (h : Heap)
    (hw : h.recordsValid) : (attachCalls h calls).recordsValid := by
  induction calls generalizing h with
  | nil => exact hw
  | cons call rest ih =>
    obtain ⟨ctx, r⟩ := call
    exact ih _ (ContextWithAWSCredentials_recordsValid h ctx r hw)

/-- C11 (no invalid record is ever stored): after any sequence of
`ContextWithAWSCredentials` calls that starts with no store in memory, every record
of every store that exists has a non-empty accessKeyID and a non-empty
secretAccessKey and is held under the key equal to its own id; hence every provider
that `GetCredentialsProvider` or `GetDefaultCredentialsProvider` returns through a
context holding such a store has a non-empty access key and a non-empty secret key. -/
theorem C11_no_invalid_record_stored (calls : List (Context × Option AWSCredentials))
    (a : Addr) (c : Ctx) (id : CredentialsID)
    (ha : a < (attachCalls Heap.empty calls).next)
    (hc : credentialsFromContext c = (some a, none)) :
    (∀ e ∈ ((attachCalls Heap.empty calls).mem a).cred,
      e.2.accessKeyID ≠ "" ∧ e.2.secretAccessKey ≠ "" ∧ e.1 = e.2.id) ∧
    (∀ p err, GetCredentialsProvider (attachCalls Heap.empty calls) (some c) id
        = .returned (some p, err) → p.AccessKeyID ≠ "" ∧ p.SecretAccessKey ≠ "") ∧
    (∀ p err, GetDefaultCredentialsProvider (attachCalls Heap.empty calls) (some c)
        = .returned (some p, err) → p.AccessKeyID ≠ "" ∧ p.SecretAccessKey ≠ "") := by
  have hw := attachCalls_recordsValid calls Heap.empty Heap.recordsValid_empty a ha
  refine ⟨fun e he => ⟨(hw e he).1.1, (hw e he).1.2, (hw e he).2⟩, ?_, ?_⟩
  · intro p err hp
    simp only [GetCredentialsProvider, hc] at hp
    cases hg : ((attachCalls Heap.empty calls).mem a).cred.get id with
    | none => simp [hg] at hp
    | some v =>
      simp only [hg, Outcome.returned.injEq, Prod.mk.injEq, Option.some.injEq] at hp
      have hv := (hw (id, v) (CredMap.mem_of_get _ _ _ hg)).1
      rw [← hp.1]
      exact hv
  · intro p err hp
    simp only [GetDefaultCredentialsProvider, hc] at hp
    cases hg : ((attachCalls Heap.empty calls).mem a).cred.get
        ((attachCalls Heap.empty calls).mem a).defaultID with
    | none => simp [hg] at hp
    | some v =>
      simp only [hg, Outcome.returned.injEq, Prod.mk.injEq, Option.some.injEq] at hp
      have hv := (hw (_, v) (CredMap.mem_of_get _ _ _ hg)).1
      rw [← hp.1]
      exact hv

theorem C11_no_invalid_record_stored_witness :
    (∀ e ∈ ((attachCalls Heap.empty
        [(some .background, some ⟨"tenant-A", "AKIA", "s3cr3t"⟩),
         (some (.withValue .background .singletonAWSCredentialsKey
            (.credentialsMapPtr (some 0))), some ⟨"tenant-B", "", "other"⟩),
         (some (.withValue .background .singletonAWSCredentialsKey
            (.credentialsMapPtr (some 0))), some ⟨"tenant-C", "AKIC", "more"⟩)]).mem 0).cred,
      e.2.accessKeyID ≠ "" ∧ e.2.secretAccessKey ≠ "" ∧ e.1 = e.2.id) ∧
    (∀ p err, GetCredentialsProvider (attachCalls Heap.empty
        [(some .background, some ⟨"tenant-A", "AKIA", "s3cr3t"⟩),
         (some (.withValue .background .singletonAWSCredentialsKey
            (.credentialsMapPtr (some 0))), some ⟨"tenant-B", "", "other"⟩),
         (some (.withValue .background .singletonAWSCredentialsKey
            (.credentialsMapPtr (some 0))), some ⟨"tenant-C", "AKIC", "more"⟩)])
        (some (.withValue .background .singletonAWSCredentialsKey
            (.credentialsMapPtr (some 0)))) "tenant-C"
        = .returned (some p, err) → p.AccessKeyID ≠ "" ∧ p.SecretAccessKey ≠ "") ∧
    (∀ p err, GetDefaultCredentialsProvider (attachCalls Heap.empty
        [(some .background, some ⟨"tenant-A", "AKIA", "s3cr3t"⟩),
         (some (.withValue .background .singletonAWSCredentialsKey
            (.credentialsMapPtr (some 0))), some ⟨"tenant-B", "", "other"⟩),
         (some (.withValue .background .singletonAWSCredentialsKey
            (.credentialsMapPtr (some 0))), some ⟨"tenant-C", "AKIC", "more"⟩)])
        (some (.withValue .background .singletonAWSCredentialsKey
            (.credentialsMapPtr (some 0))))
        = .returned (some p, err) → p.AccessKeyID ≠ "" ∧ p.SecretAccessKey ≠ "") :=
  C11_no_invalid_record_stored
    [(some .background, some ⟨"tenant-A", "AKIA", "s3cr3t"⟩),
     (some (.withValue .background .singletonAWSCredentialsKey
        (.credentialsMapPtr (some 0))), some ⟨"tenant-B", "", "other"⟩),
     (some (.withValue .background .singletonAWSCredentialsKey
        (.credentialsMapPtr (some 0))), some ⟨"tenant-C", "AKIC", "more"⟩)]
    0 (.withValue .background .singletonAWSCredentialsKey (.credentialsMapPtr (some 0)))
    "tenant-C" (by decide) (by decide)

/-! ### The default identifier -/

/-- An attach call through a context that holds a store changes no default id. -/
theorem attach_keeps_defaultID (h : Heap) (c : Ctx) (a : Addr) (R : Option AWSCredentials)
    (hc : credentialsFromContext c = (some a, none)) (b : Addr) :
    ((ContextWithAWSCredentials h (some c) R).heap.mem b).defaultID = (h.mem b).defaultID := by
  cases R with
  | none => simp [ContextWithAWSCredentials]
  | some r =>
    by_cases hv : r.accessKeyID = "" ∨ r.secretAccessKey = ""
    · simp [ContextWithAWSCredentials, hv]
    · simp only [ContextWithAWSCredentials, hv, if_false, hc, Heap.assignCred]
      by_cases hb : b = a
      · subst hb
        simp
      · simp [Function.update_noteq hb]

theorem attachAll_keeps_defaultID (root : Ctx) (a : Addr)
    (hroot : credentialsFromContext root = (some a, none))
    (calls : List (List Layer × AWSCredentials)) (g : Heap) (b : Addr) :
    ((attachAll g root calls).mem b).defaultID = (g.mem b).defaultID := by
  induction calls generalizing g with
  | nil => rfl
  | cons call rest ih =>
    obtain ⟨ls, r⟩ := call
    have hd : credentialsFromContext (root.derive ls) = (some a, none) := by
      rw [credentialsFromContext_derive, hroot]
    simp only [attachAll]
    rw [ih, attach_keeps_defaultID g (root.derive ls) a (some r) hd b]

/-- C12 (the default identifier is frozen): for a context that holds a store and any
record (valid, invalid or nil), `ContextWithAWSCredentials` leaves the store's
defaultID as it was before the call; so after a valid record R1 is attached first to
a context that holds no store, and any sequence of records is attached through
contexts of the lineage, the store's defaultID is R1's id. -/
theorem C12_default_id_frozen (h : Heap) (ctx ctx1 c1 : Ctx) (a : Addr)
    (R : Option AWSCredentials) (R1 : AWSCredentials)
    (calls : List (List Layer × AWSCredentials))
    (hstore : credentialsFromContext ctx1 = (some a, none))
    (hvalid : R1.valid) (hnostore : credentialsFromContext ctx = (none, none))
    (hc1 : (ContextWithAWSCredentials h (some ctx) (some R1)).ctx = some c1) :
    ((ContextWithAWSCredentials h (some ctx1) R).heap.mem a).defaultID = (h.mem a).defaultID ∧
    ∃ a1, credentialsFromContext c1 = (some a1, none) ∧
      ((attachAll (ContextWithAWSCredentials h (some ctx) (some R1)).heap c1 calls).mem
        a1).defaultID = R1.id := by
  refine ⟨attach_keeps_defaultID h ctx1 a R hstore a, h.next, ?_⟩
  rw [attach_first h ctx R1 hvalid hnostore] at hc1 ⊢
  simp only [Option.some.injEq] at hc1
  subst hc1
  have hroot := credentialsFromContext_withValue ctx (some h.next)
  refine ⟨hroot, ?_⟩
  rw [attachAll_keeps_defaultID _ h.next hroot calls _ h.next]
  simp

theorem C12_default_id_frozen_witness :
    ((ContextWithAWSCredentials
        (ContextWithAWSCredentials Heap.empty (some .background)
          (some ⟨"tenant-A", "AKIA", "s3cr3t"⟩)).heap
        (some (.withValue .background .singletonAWSCredentialsKey (.credentialsMapPtr (some 0))))
        (some ⟨"tenant-B", "AKIB", "other"⟩)).heap.mem 0).defaultID
      = ((ContextWithAWSCredentials Heap.empty (some .background)
          (some ⟨"tenant-A", "AKIA", "s3cr3t"⟩)).heap.mem 0).defaultID ∧
    ∃ a1, credentialsFromContext
        (.withValue (.withCancel .background) .singletonAWSCredentialsKey
          (.credentialsMapPtr (some 1))) = (some a1, none) ∧
      ((attachAll (ContextWithAWSCredentials
          (ContextWithAWSCredentials Heap.empty (some .background)
            (some ⟨"tenant-A", "AKIA", "s3cr3t"⟩)).heap
          (some (.withCancel .background)) (some ⟨"tenant-C", "AKIC", "more"⟩)).heap
        (.withValue (.withCancel .background) .singletonAWSCredentialsKey
          (.credentialsMapPtr (some 1)))
        [([.cancel], ⟨"tenant-D", "AKID", "most"⟩), ([], ⟨"tenant-E", "", "none"⟩)]).mem
        a1).defaultID = "tenant-C" :=
  C12_default_id_frozen
    (ContextWithAWSCredentials Heap.empty (some .background)
      (some ⟨"tenant-A", "AKIA", "s3cr3t"⟩)).heap
    (.withCancel .background)
    (.withValue .background .singletonAWSCredentialsKey (.credentialsMapPtr (some 0)))
    (.withValue (.withCancel .background) .singletonAWSCredentialsKey
      (.credentialsMapPtr (some 1)))
    0 (some ⟨"tenant-B", "AKIB", "other"⟩) ⟨"tenant-C", "AKIC", "more"⟩
    [([.cancel], ⟨"tenant-D", "AKID", "most"⟩), ([], ⟨"tenant-E", "", "none"⟩)]
    (by decide) (by decide) (by decide) (by decide)

/-! ### A value of another type under the reserved key -/

/-- On a non-nil context whose value under the reserved key is present but is not a
`*credentialsMap`, the attach of a valid record takes the return `return ctx, nil` of
the `err != nil` test: the supplied context comes back with a nil error, the memory is
as it was, and both lookups on that context return a nil provider and
ErrUnexpectedErrorRetrievingCredentials. -/
theorem attach_on_wrong_type (h : Heap) (ctx : Ctx) (dyn : String)
    (R : AWSCredentials) (hvalid : R.valid)
    (hcorrupt : ctx.Value .singletonAWSCredentialsKey = .other dyn) :
    ContextWithAWSCredentials h (some ctx) (some R) = ⟨h, some ctx, none⟩ ∧
    (∀ id, GetCredentialsProvider h (some ctx) id
      = .returned (none, some .ErrUnexpectedErrorRetrievingCredentials)) ∧
    GetDefaultCredentialsProvider h (some ctx)
      = .returned (none, some .ErrUnexpectedErrorRetrievingCredentials) := by
  have hc : credentialsFromContext ctx
      = (none, some .ErrUnexpectedErrorRetrievingCredentials) := by
    simp [credentialsFromContext, hcorrupt]
  obtain ⟨h1, h2⟩ := hvalid
  refine ⟨?_, ?_, ?_⟩
  · simp [ContextWithAWSCredentials, h1, h2, hc]
  · intro id
    simp [GetCredentialsProvider, hc]
  · simp [GetDefaultCredentialsProvider, hc]

/-- C13 (corrupted scope at attach), at the failing input: the context is
`context.WithValue(context.Background(), singletonAWSCredentialsKey, "a string")` and
the record is the valid ("tenant-A", "AKIA", "s3cr3t"). The call returns a nil error,
as the claim says, but it returns the supplied context and no fresh layer: no store is
allocated, and on the returned context `GetCredentialsProvider` with "tenant-A" and
`GetDefaultCredentialsProvider` return a nil provider and
ErrUnexpectedErrorRetrievingCredentials, so the record is not resolvable. -/
theorem C13_corrupted_scope_drops_record :
    AWSCredentials.valid ⟨"tenant-A", "AKIA", "s3cr3t"⟩ ∧
    (ContextWithAWSCredentials Heap.empty
        (some (.withValue .background .singletonAWSCredentialsKey (.other "string")))
        (some ⟨"tenant-A", "AKIA", "s3cr3t"⟩)).err = none ∧
    (ContextWithAWSCredentials Heap.empty
        (some (.withValue .background .singletonAWSCredentialsKey (.other "string")))
        (some ⟨"tenant-A", "AKIA", "s3cr3t"⟩)).ctx
      = some (.withValue .background .singletonAWSCredentialsKey (.other "string")) ∧
    (ContextWithAWSCredentials Heap.empty
        (some (.withValue .background .singletonAWSCredentialsKey (.other "string")))
        (some ⟨"tenant-A", "AKIA", "s3cr3t"⟩)).heap.next = 0 ∧
    GetCredentialsProvider
        (ContextWithAWSCredentials Heap.empty
          (some (.withValue .background .singletonAWSCredentialsKey (.other "string")))
          (some ⟨"tenant-A", "AKIA", "s3cr3t"⟩)).heap
        (ContextWithAWSCredentials Heap.empty
          (some (.withValue .background .singletonAWSCredentialsKey (.other "string")))
          (some ⟨"tenant-A", "AKIA", "s3cr3t"⟩)).ctx "tenant-A"
      = .returned (none, some .ErrUnexpectedErrorRetrievingCredentials) ∧
    GetDefaultCredentialsProvider
        (ContextWithAWSCredentials Heap.empty
          (some (.withValue .background .singletonAWSCredentialsKey (.other "string")))
          (some ⟨"tenant-A", "AKIA", "s3cr3t"⟩)).heap
        (ContextWithAWSCredentials Heap.empty
          (some (.withValue .background .singletonAWSCredentialsKey (.other "string")))
          (some ⟨"tenant-A", "AKIA", "s3cr3t"⟩)).ctx
      = .returned (none, some .ErrUnexpectedErrorRetrievingCredentials) := by
  decide

/-! ### Writes by id -/

/-- C15 (last write wins per id): for a non-nil context that holds a store or holds
nothing under the reserved key, and a valid record R, `ContextWithAWSCredentials`
returns a nil error and `GetCredentialsProvider` on the returned context with R's
id returns R's access key and secret key, whatever was held under that id before. -/
theorem C15_last_write_wins (h : Heap) (ctx : Ctx) (m : Option Addr) (R : AWSCredentials)
    (hvalid : R.valid) (hctx : credentialsFromContext ctx = (m, none)) :
    (ContextWithAWSCredentials h (some ctx) (some R)).err = none ∧
    GetCredentialsProvider (ContextWithAWSCredentials h (some ctx) (some R)).heap
        (ContextWithAWSCredentials h (some ctx) (some R)).ctx R.id
      = .returned (some (NewStaticCredentialsProvider R.accessKeyID R.secretAccessKey ""),
          none) := by
  cases m with
  | none =>
    rw [attach_first h ctx R hvalid hctx]
    refine ⟨rfl, ?_⟩
    simp [GetCredentialsProvider, credentialsFromContext_withValue, CredMap.get]
  | some a =>
    rw [attach_further h ctx R a hvalid hctx]
    refine ⟨rfl, ?_⟩
    simp [GetCredentialsProvider, hctx, Heap.assignCred, CredMap.get_assign_same]

theorem C15_last_write_wins_witness :
    (ContextWithAWSCredentials
        (ContextWithAWSCredentials Heap.empty (some .background)
          (some ⟨"tenant-A", "AKIA", "s3cr3t"⟩)).heap
        (some (.withValue .background .singletonAWSCredentialsKey (.credentialsMapPtr (some 0))))
        (some ⟨"tenant-A", "AKIB", "other"⟩)).err = none ∧
    GetCredentialsProvider
        (ContextWithAWSCredentials
          (ContextWithAWSCredentials Heap.empty (some .background)
            (some ⟨"tenant-A", "AKIA", "s3cr3t"⟩)).heap
          (some (.withValue .background .singletonAWSCredentialsKey
            (.credentialsMapPtr (some 0))))
          (some ⟨"tenant-A", "AKIB", "other"⟩)).heap
        (ContextWithAWSCredentials
          (ContextWithAWSCredentials Heap.empty (some .background)
            (some ⟨"tenant-A", "AKIA", "s3cr3t"⟩)).heap
          (some (.withValue .background .singletonAWSCredentialsKey
            (.credentialsMapPtr (some 0))))
          (some ⟨"tenant-A", "AKIB", "other"⟩)).ctx "tenant-A"
      = .returned (some (NewStaticCredentialsProvider "AKIB" "other" ""), none) :=
  C15_last_write_wins
    (ContextWithAWSCredentials Heap.empty (some .background)
      (some ⟨"tenant-A", "AKIA", "s3cr3t"⟩)).heap
    (.withValue .background .singletonAWSCredentialsKey (.credentialsMapPtr (some 0)))
    (some 0) ⟨"tenant-A", "AKIB", "other"⟩ (by decide) (by decide)

/-- C16 (attach touches one entry only): for a context that holds a store, a valid
record R and an id j other than R's id, `GetCredentialsProvider` with j returns the
same result after `ContextWithAWSCredentials(ctx, R)` as before it, through the
context itself (which is the context returned) and through every other context. -/
theorem C16_attach_touches_one_entry (h : Heap) (ctx : Ctx) (a : Addr) (R : AWSCredentials)
    (j : CredentialsID) (hstore : credentialsFromContext ctx = (some a, none))
    (hvalid : R.valid) (hj : j ≠ R.id) :
    (ContextWithAWSCredentials h (some ctx) (some R)).ctx = some ctx ∧
    GetCredentialsProvider (ContextWithAWSCredentials h (some ctx) (some R)).heap (some ctx) j
      = GetCredentialsProvider h (some ctx) j ∧
    ∀ c, GetCredentialsProvider (ContextWithAWSCredentials h (some ctx) (some R)).heap c j
      = GetCredentialsProvider h c j := by
  rw [attach_further h ctx R a hvalid hstore]
  have hall : ∀ c, GetCredentialsProvider (h.assignCred a R.id R) c j
      = GetCredentialsProvider h c j := by
    intro c
    have hmem : ∀ b, ((h.assignCred a R.id R).mem b).cred.get j = (h.mem b).cred.get j := by
      intro b
      by_cases hb : b = a
      · subst hb
        simp [Heap.assignCred, CredMap.get_assign_ne _ _ _ _ hj]
      · simp [Heap.assignCred, Function.update_noteq hb]
    cases c with
    | none => rfl
    | some c =>
      simp only [GetCredentialsProvider]
      split
      · rfl
      · rfl
      · rw [hmem]
  exact ⟨rfl, hall (some ctx), hall⟩

theorem C16_attach_touches_one_entry_witness :
    (ContextWithAWSCredentials
        (ContextWithAWSCredentials Heap.empty (some .background)
          (some ⟨"tenant-A", "AKIA", "s3cr3t"⟩)).heap
        (some (.withValue .background .singletonAWSCredentialsKey (.credentialsMapPtr (some 0))))
        (some ⟨"tenant-B", "AKIB", "other"⟩)).ctx
      = some (.withValue .background .singletonAWSCredentialsKey
          (.credentialsMapPtr (some 0))) ∧
    GetCredentialsProvider
        (ContextWithAWSCredentials
          (ContextWithAWSCredentials Heap.empty (some .background)
            (some ⟨"tenant-A", "AKIA", "s3cr3t"⟩)).heap
          (some (.withValue .background .singletonAWSCredentialsKey
            (.credentialsMapPtr (some 0))))
          (some ⟨"tenant-B", "AKIB", "other"⟩)).heap
        (some (.withValue .background .singletonAWSCredentialsKey
          (.credentialsMapPtr (some 0)))) "tenant-A"
      = GetCredentialsProvider
        (ContextWithAWSCredentials Heap.empty (some .background)
          (some ⟨"tenant-A", "AKIA", "s3cr3t"⟩)).heap
        (some (.withValue .background .singletonAWSCredentialsKey
          (.credentialsMapPtr (some 0)))) "tenant-A" ∧
    ∀ c, GetCredentialsProvider
        (ContextWithAWSCredentials
          (ContextWithAWSCredentials Heap.empty (some .background)
            (some ⟨"tenant-A", "AKIA", "s3cr3t"⟩)).heap
          (some (.withValue .background .singletonAWSCredentialsKey
            (.credentialsMapPtr (some 0))))
          (some ⟨"tenant-B", "AKIB", "other"⟩)).heap c "tenant-A"
      = GetCredentialsProvider
        (ContextWithAWSCredentials Heap.empty (some .background)
          (some ⟨"tenant-A", "AKIA", "s3cr3t"⟩)).heap c "tenant-A" :=
  C16_attach_touches_one_entry
    (ContextWithAWSCredentials Heap.empty (some .background)
      (some ⟨"tenant-A", "AKIA", "s3cr3t"⟩)).heap
    (.withValue .background .singletonAWSCredentialsKey (.credentialsMapPtr (some 0)))
    0 ⟨"tenant-B", "AKIB", "other"⟩ "tenant-A" (by decide) (by decide) (by decide)

/-- C17 (wrong-typed stored value at lookup): `GetCredentialsProvider` (for every id)
and `GetDefaultCredentialsProvider` return a nil provider and
ErrUnexpectedErrorRetrievingCredentials exactly when the context is non-nil and its
value under the reserved key is present but is not a `*credentialsMap`; and they
never return that error together with a provider. -/
theorem C17_wrong_typed_value_at_lookup (h : Heap) (ctx : Context) (id : CredentialsID) :
    (GetCredentialsProvider h ctx id
        = .returned (none, some .ErrUnexpectedErrorRetrievingCredentials) ↔
      ∃ c dyn, ctx = some c ∧ c.Value .singletonAWSCredentialsKey = .other dyn) ∧
    (GetDefaultCredentialsProvider h ctx
        = .returned (none, some .ErrUnexpectedErrorRetrievingCredentials) ↔
      ∃ c dyn, ctx = some c ∧ c.Value .singletonAWSCredentialsKey = .other dyn) ∧
    (∀ p, GetCredentialsProvider h ctx id
        ≠ .returned (some p, some .ErrUnexpectedErrorRetrievingCredentials)) ∧
    (∀ p, GetDefaultCredentialsProvider h ctx
        ≠ .returned (some p, some .ErrUnexpectedErrorRetrievingCredentials)) := by
  cases ctx with
  | none => simp [GetCredentialsProvider, GetDefaultCredentialsProvider]
  | some c =>
    cases hv : c.Value .singletonAWSCredentialsKey with
    | nil =>
      simp [GetCredentialsProvider, GetDefaultCredentialsProvider, credentialsFromContext, hv]
    | other dyn =>
      simp [GetCredentialsProvider, GetDefaultCredentialsProvider, credentialsFromContext, hv]
    | credentialsMapPtr m =>
      cases m with
      | none =>
        simp [GetCredentialsProvider, GetDefaultCredentialsProvider, credentialsFromContext, hv]
      | some a =>
        simp only [GetCredentialsProvider, GetDefaultCredentialsProvider,
          credentialsFromContext, hv]
        refine ⟨?_, ?_, ?_, ?_⟩
        · cases (h.mem a).cred.get id <;> simp [hv]
        · cases (h.mem a).cred.get (h.mem a).defaultID <;> simp [hv]
        · intro p
          cases (h.mem a).cred.get id <;> simp
        · intro p
          cases (h.mem a).cred.get (h.mem a).defaultID <;> simp

/-! ### Two first attaches from one parent -/

/-- An attach through a context that holds the store at `a` leaves every other
object of the memory as it was. -/
theorem attach_keeps_other_stores (h : Heap) (c : Ctx) (a : Addr) (R : Option AWSCredentials)
    (hc : credentialsFromContext c = (some a, none)) (b : Addr) (hb : b ≠ a) :
    (ContextWithAWSCredentials h (some c) R).heap.mem b = h.mem b := by
  cases R with
  | none => simp [ContextWithAWSCredentials]
  | some r =>
    by_cases hv : r.accessKeyID = "" ∨ r.secretAccessKey = ""
    · simp [ContextWithAWSCredentials, hv]
    · simp [ContextWithAWSCredentials, hv, hc, Heap.assignCred, Function.update_noteq hb]

/-- Any sequence of attach calls through the lineage of a context that holds the store
at `a` leaves every other object of the memory as it was. -/
theorem attachAll_keeps_other_stores (root : Ctx) (a : Addr)
    (hroot : credentialsFromContext root = (some a, none))
    (calls : List (List Layer × AWSCredentials)) (g : Heap) (b : Addr) (hb : b ≠ a) :
    (attachAll g root calls).mem b = g.mem b := by
  induction calls generalizing g with
  | nil => rfl
  | cons call rest ih =>
    obtain ⟨ls, r⟩ := call
    have hd : credentialsFromContext (root.derive ls) = (some a, none) := by
      rw [credentialsFromContext_derive, hroot]
    simp only [attachAll]
    rw [ih, attach_keeps_other_stores g (root.derive ls) a (some r) hd b hb]

/-- C18 (a first attach does not touch the parent): ctx0 holds no store, R1 and R2
are valid and their ids differ; c1 is returned by attaching R1 to ctx0 and c2 by then
attaching R2 to ctx0 again. Then each call built a child of ctx0 with a store of its
own at a different address, a lookup through ctx0 still finds no store,
`GetCredentialsProvider(c1, R2.id)` and `GetCredentialsProvider(c2, R1.id)` return
ErrUnknownCredentialsID while each context resolves its own record, and the two stores
are independent at any later time: from any memory `g`, after any sequence of attach
calls through contexts of the lineage of c1, both lookups through c2 and through every
context derived from c2 return what they return on `g`, and likewise with c1 and c2
exchanged. -/
theorem C18_first_attach_keeps_parent (h h1 h2 g : Heap) (ctx0 c1 c2 : Ctx)
    (R1 R2 : AWSCredentials) (calls : List (List Layer × AWSCredentials))
    (j : CredentialsID) (ls : List Layer)
    (hnostore : credentialsFromContext ctx0 = (none, none))
    (hv1 : R1.valid) (hv2 : R2.valid) (hids : R1.id ≠ R2.id)
    (hh1 : h1 = (ContextWithAWSCredentials h (some ctx0) (some R1)).heap)
    (hc1 : (ContextWithAWSCredentials h (some ctx0) (some R1)).ctx = some c1)
    (hh2 : h2 = (ContextWithAWSCredentials h1 (some ctx0) (some R2)).heap)
    (hc2 : (ContextWithAWSCredentials h1 (some ctx0) (some R2)).ctx = some c2) :
    (c1 = .withValue ctx0 .singletonAWSCredentialsKey (.credentialsMapPtr (some h.next)) ∧
      c2 = .withValue ctx0 .singletonAWSCredentialsKey
        (.credentialsMapPtr (some (h.next + 1))) ∧
      h2.next = h.next + 2) ∧
    GetCredentialsProvider h2 (some ctx0) j = .panicked .nilPointerDereference ∧
    (GetCredentialsProvider h2 (some c1) R2.id
        = .returned (none, some .ErrUnknownCredentialsID) ∧
      GetCredentialsProvider h2 (some c2) R1.id
        = .returned (none, some .ErrUnknownCredentialsID)) ∧
    (GetCredentialsProvider h2 (some c1) R1.id
        = .returned (some (NewStaticCredentialsProvider R1.accessKeyID R1.secretAccessKey ""),
            none) ∧
      GetCredentialsProvider h2 (some c2) R2.id
        = .returned (some (NewStaticCredentialsProvider R2.accessKeyID R2.secretAccessKey ""),
            none)) ∧
    (GetCredentialsProvider (attachAll g c1 calls) (some (c2.derive ls)) j
        = GetCredentialsProvider g (some (c2.derive ls)) j ∧
      GetDefaultCredentialsProvider (attachAll g c1 calls) (some (c2.derive ls))
        = GetDefaultCredentialsProvider g (some (c2.derive ls))) ∧
    (GetCredentialsProvider (attachAll g c2 calls) (some (c1.derive ls)) j
        = GetCredentialsProvider g (some (c1.derive ls)) j ∧
      GetDefaultCredentialsProvider (attachAll g c2 calls) (some (c1.derive ls))
        = GetDefaultCredentialsProvider g (some (c1.derive ls))) := by
  rw [attach_first h ctx0 R1 hv1 hnostore] at hh1 hc1
  subst hh1
  rw [attach_first _ ctx0 R2 hv2 hnostore] at hh2 hc2
  subst hh2
  simp only [Option.some.injEq] at hc1 hc2
  subst hc1
  subst hc2
  have hne : h.next ≠ h.next + 1 := Nat.ne_of_lt (Nat.lt_succ_self _)
  have hr1 := credentialsFromContext_withValue ctx0 (some h.next)
  have hr2 := credentialsFromContext_withValue ctx0 (some (h.next + 1))
  have h12 : ¬ R1.id = R2.id := hids
  have h21 : ¬ R2.id = R1.id := fun e => hids e.symm
  refine ⟨⟨rfl, rfl, rfl⟩, ?_, ⟨?_, ?_⟩, ⟨?_, ?_⟩, ⟨?_, ?_⟩, ⟨?_, ?_⟩⟩
  · simp [GetCredentialsProvider, hnostore]
  · simp [GetCredentialsProvider, hr1, Function.update_noteq hne, CredMap.get, h12]
  · simp [GetCredentialsProvider, hr2, CredMap.get, h21]
  · simp [GetCredentialsProvider, hr1, Function.update_noteq hne, CredMap.get]
  · simp [GetCredentialsProvider, hr2, CredMap.get]
  · simp only [GetCredentialsProvider, credentialsFromContext_derive, hr2]
    rw [attachAll_keeps_other_stores _ h.next hr1 calls g (h.next + 1) hne.symm]
  · simp only [GetDefaultCredentialsProvider, credentialsFromContext_derive, hr2]
    rw [attachAll_keeps_other_stores _ h.next hr1 calls g (h.next + 1) hne.symm]
  · simp only [GetCredentialsProvider, credentialsFromContext_derive, hr1]
    rw [attachAll_keeps_other_stores _ (h.next + 1) hr2 calls g h.next hne]
  · simp only [GetDefaultCredentialsProvider, credentialsFromContext_derive, hr1]
    rw [attachAll_keeps_other_stores _ (h.next + 1) hr2 calls g h.next hne]

theorem C18_first_attach_keeps_parent_witness :
    ((Ctx.withValue .background .singletonAWSCredentialsKey (.credentialsMapPtr (some 0)))
        = .withValue .background .singletonAWSCredentialsKey
          (.credentialsMapPtr (some Heap.empty.next)) ∧
      (Ctx.withValue .background .singletonAWSCredentialsKey (.credentialsMapPtr (some 1)))
        = .withValue .background .singletonAWSCredentialsKey
          (.credentialsMapPtr (some (Heap.empty.next + 1))) ∧
      (ContextWithAWSCredentials
        (ContextWithAWSCredentials Heap.empty (some .background)
          (some ⟨"tenant-A", "AKIA", "s3cr3t"⟩)).heap
        (some .background) (some ⟨"tenant-B", "AKIB", "other"⟩)).heap.next
        = Heap.empty.next + 2) ∧
    GetCredentialsProvider
        (ContextWithAWSCredentials
        (ContextWithAWSCredentials Heap.empty (some .background)
          (some ⟨"tenant-A", "AKIA", "s3cr3t"⟩)).heap
        (some .background) (some ⟨"tenant-B", "AKIB", "other"⟩)).heap
        (some .background) "tenant-D" = .panicked .nilPointerDereference ∧
    (GetCredentialsProvider
        (ContextWithAWSCredentials
        (ContextWithAWSCredentials Heap.empty (some .background)
          (some ⟨"tenant-A", "AKIA", "s3cr3t"⟩)).heap
        (some .background) (some ⟨"tenant-B", "AKIB", "other"⟩)).heap
        (some (.withValue .background .singletonAWSCredentialsKey (.credentialsMapPtr (some 0)))) "tenant-B"
        = .returned (none, some .ErrUnknownCredentialsID) ∧
      GetCredentialsProvider
        (ContextWithAWSCredentials
        (ContextWithAWSCredentials Heap.empty (some .background)
          (some ⟨"tenant-A", "AKIA", "s3cr3t"⟩)).heap
        (some .background) (some ⟨"tenant-B", "AKIB", "other"⟩)).heap
        (some (.withValue .background .singletonAWSCredentialsKey (.credentialsMapPtr (some 1)))) "tenant-A"
        = .returned (none, some .ErrUnknownCredentialsID)) ∧
    (GetCredentialsProvider
        (ContextWithAWSCredentials
        (ContextWithAWSCredentials Heap.empty (some .background)
          (some ⟨"tenant-A", "AKIA", "s3cr3t"⟩)).heap
        (some .background) (some ⟨"tenant-B", "AKIB", "other"⟩)).heap
        (some (.withValue .background .singletonAWSCredentialsKey (.credentialsMapPtr (some 0)))) "tenant-A"
        = .returned (some (NewStaticCredentialsProvider "AKIA" "s3cr3t" ""), none) ∧
      GetCredentialsProvider
        (ContextWithAWSCredentials
        (ContextWithAWSCredentials Heap.empty (some .background)
          (some ⟨"tenant-A", "AKIA", "s3cr3t"⟩)).heap
        (some .background) (some ⟨"tenant-B", "AKIB", "other"⟩)).heap
        (some (.withValue .background .singletonAWSCredentialsKey (.credentialsMapPtr (some 1)))) "tenant-B"
        = .returned (some (NewStaticCredentialsProvider "AKIB" "other" ""), none)) ∧
    (GetCredentialsProvider
        (attachAll
          (ContextWithAWSCredentials
        (ContextWithAWSCredentials
        (ContextWithAWSCredentials Heap.empty (some .background)
          (some ⟨"tenant-A", "AKIA", "s3cr3t"⟩)).heap
        (some .background) (some ⟨"tenant-B", "AKIB", "other"⟩)).heap
        (some (.withValue .background .singletonAWSCredentialsKey (.credentialsMapPtr (some 1)))) (some ⟨"tenant-D", "AKIX", "first"⟩)).heap
          (.withValue .background .singletonAWSCredentialsKey (.credentialsMapPtr (some 0)))
          [([Layer.cancel], (⟨"tenant-C", "AKIC", "more"⟩ : AWSCredentials)), ([], ⟨"tenant-D", "AKID", "most"⟩)])
        (some (Ctx.derive (.withValue .background .singletonAWSCredentialsKey (.credentialsMapPtr (some 1))) [.cancel])) "tenant-D"
        = GetCredentialsProvider
          (ContextWithAWSCredentials
        (ContextWithAWSCredentials
        (ContextWithAWSCredentials Heap.empty (some .background)
          (some ⟨"tenant-A", "AKIA", "s3cr3t"⟩)).heap
        (some .background) (some ⟨"tenant-B", "AKIB", "other"⟩)).heap
        (some (.withValue .background .singletonAWSCredentialsKey (.credentialsMapPtr (some 1)))) (some ⟨"tenant-D", "AKIX", "first"⟩)).heap
          (some (Ctx.derive (.withValue .background .singletonAWSCredentialsKey (.credentialsMapPtr (some 1))) [.cancel])) "tenant-D" ∧
      GetDefaultCredentialsProvider
        (attachAll
          (ContextWithAWSCredentials
        (ContextWithAWSCredentials
        (ContextWithAWSCredentials Heap.empty (some .background)
          (some ⟨"tenant-A", "AKIA", "s3cr3t"⟩)).heap
        (some .background) (some ⟨"tenant-B", "AKIB", "other"⟩)).heap
        (some (.withValue .background .singletonAWSCredentialsKey (.credentialsMapPtr (some 1)))) (some ⟨"tenant-D", "AKIX", "first"⟩)).heap
          (.withValue .background .singletonAWSCredentialsKey (.credentialsMapPtr (some 0)))
          [([Layer.cancel], (⟨"tenant-C", "AKIC", "more"⟩ : AWSCredentials)), ([], ⟨"tenant-D", "AKID", "most"⟩)])
        (some (Ctx.derive (.withValue .background .singletonAWSCredentialsKey (.credentialsMapPtr (some 1))) [.cancel]))
        = GetDefaultCredentialsProvider
          (ContextWithAWSCredentials
        (ContextWithAWSCredentials
        (ContextWithAWSCredentials Heap.empty (some .background)
          (some ⟨"tenant-A", "AKIA", "s3cr3t"⟩)).heap
        (some .background) (some ⟨"tenant-B", "AKIB", "other"⟩)).heap
        (some (.withValue .background .singletonAWSCredentialsKey (.credentialsMapPtr (some 1)))) (some ⟨"tenant-D", "AKIX", "first"⟩)).heap
          (some (Ctx.derive (.withValue .background .singletonAWSCredentialsKey (.credentialsMapPtr (some 1))) [.cancel]))) ∧
    (GetCredentialsProvider
        (attachAll
          (ContextWithAWSCredentials
        (ContextWithAWSCredentials
        (ContextWithAWSCredentials Heap.empty (some .background)
          (some ⟨"tenant-A", "AKIA", "s3cr3t"⟩)).heap
        (some .background) (some ⟨"tenant-B", "AKIB", "other"⟩)).heap
        (some (.withValue .background .singletonAWSCredentialsKey (.credentialsMapPtr (some 1)))) (some ⟨"tenant-D", "AKIX", "first"⟩)).heap
          (.withValue .background .singletonAWSCredentialsKey (.credentialsMapPtr (some 1)))
          [([Layer.cancel], (⟨"tenant-C", "AKIC", "more"⟩ : AWSCredentials)), ([], ⟨"tenant-D", "AKID", "most"⟩)])
        (some (Ctx.derive (.withValue .background .singletonAWSCredentialsKey (.credentialsMapPtr (some 0))) [.cancel])) "tenant-D"
        = GetCredentialsProvider
          (ContextWithAWSCredentials
        (ContextWithAWSCredentials
        (ContextWithAWSCredentials Heap.empty (some .background)
          (some ⟨"tenant-A", "AKIA", "s3cr3t"⟩)).heap
        (some .background) (some ⟨"tenant-B", "AKIB", "other"⟩)).heap
        (some (.withValue .background .singletonAWSCredentialsKey (.credentialsMapPtr (some 1)))) (some ⟨"tenant-D", "AKIX", "first"⟩)).heap
          (some (Ctx.derive (.withValue .background .singletonAWSCredentialsKey (.credentialsMapPtr (some 0))) [.cancel])) "tenant-D" ∧
      GetDefaultCredentialsProvider
        (attachAll
          (ContextWithAWSCredentials
        (ContextWithAWSCredentials
        (ContextWithAWSCredentials Heap.empty (some .background)
          (some ⟨"tenant-A", "AKIA", "s3cr3t"⟩)).heap
        (some .background) (some ⟨"tenant-B", "AKIB", "other"⟩)).heap
        (some (.withValue .background .singletonAWSCredentialsKey (.credentialsMapPtr (some 1)))) (some ⟨"tenant-D", "AKIX", "first"⟩)).heap
          (.withValue .background .singletonAWSCredentialsKey (.credentialsMapPtr (some 1)))
          [([Layer.cancel], (⟨"tenant-C", "AKIC", "more"⟩ : AWSCredentials)), ([], ⟨"tenant-D", "AKID", "most"⟩)])
        (some (Ctx.derive (.withValue .background .singletonAWSCredentialsKey (.credentialsMapPtr (some 0))) [.cancel]))
        = GetDefaultCredentialsProvider
          (ContextWithAWSCredentials
        (ContextWithAWSCredentials
        (ContextWithAWSCredentials Heap.empty (some .background)
          (some ⟨"tenant-A", "AKIA", "s3cr3t"⟩)).heap
        (some .background) (some ⟨"tenant-B", "AKIB", "other"⟩)).heap
        (some (.withValue .background .singletonAWSCredentialsKey (.credentialsMapPtr (some 1)))) (some ⟨"tenant-D", "AKIX", "first"⟩)).heap
          (some (Ctx.derive (.withValue .background .singletonAWSCredentialsKey (.credentialsMapPtr (some 0))) [.cancel]))) :=
  C18_first_attach_keeps_parent Heap.empty
    (ContextWithAWSCredentials Heap.empty (some .background)
          (some ⟨"tenant-A", "AKIA", "s3cr3t"⟩)).heap
    (ContextWithAWSCredentials
        (ContextWithAWSCredentials Heap.empty (some .background)
          (some ⟨"tenant-A", "AKIA", "s3cr3t"⟩)).heap
        (some .background) (some ⟨"tenant-B", "AKIB", "other"⟩)).heap
    (ContextWithAWSCredentials
        (ContextWithAWSCredentials
        (ContextWithAWSCredentials Heap.empty (some .background)
          (some ⟨"tenant-A", "AKIA", "s3cr3t"⟩)).heap
        (some .background) (some ⟨"tenant-B", "AKIB", "other"⟩)).heap
        (some (.withValue .background .singletonAWSCredentialsKey (.credentialsMapPtr (some 1)))) (some ⟨"tenant-D", "AKIX", "first"⟩)).heap
    .background
    (.withValue .background .singletonAWSCredentialsKey (.credentialsMapPtr (some 0)))
    (.withValue .background .singletonAWSCredentialsKey (.credentialsMapPtr (some 1)))
    ⟨"tenant-A", "AKIA", "s3cr3t"⟩ ⟨"tenant-B", "AKIB", "other"⟩
    [([Layer.cancel], (⟨"tenant-C", "AKIC", "more"⟩ : AWSCredentials)), ([], ⟨"tenant-D", "AKID", "most"⟩)]
    "tenant-D" [.cancel]
    (by decide) (by decide) (by decide) (by decide) rfl (by decide) rfl (by decide)

/-! ### The empty identifier -/

/-- C19 (the identifier is not validated): for a record whose id is the empty string
and whose keys are both non-empty, `ContextWithAWSCredentials` on a context that
holds no store returns a nil error and a context that holds a store whose default id
is the empty string, and both `GetCredentialsProvider(ctx, "")` and
`GetDefaultCredentialsProvider(ctx)` on the returned context return the record's
access key and secret key. -/
theorem C19_identifier_not_validated (h : Heap) (ctx : Ctx) (R : AWSCredentials)
    (hid : R.id = "") (hvalid : R.valid)
    (hnostore : credentialsFromContext ctx = (none, none)) :
    (ContextWithAWSCredentials h (some ctx) (some R)).err = none ∧
    (∃ c1 a, (ContextWithAWSCredentials h (some ctx) (some R)).ctx = some c1 ∧
      credentialsFromContext c1 = (some a, none) ∧
      ((ContextWithAWSCredentials h (some ctx) (some R)).heap.mem a).defaultID = "") ∧
    GetCredentialsProvider (ContextWithAWSCredentials h (some ctx) (some R)).heap
        (ContextWithAWSCredentials h (some ctx) (some R)).ctx ""
      = .returned (some (NewStaticCredentialsProvider R.accessKeyID R.secretAccessKey ""),
          none) ∧
    GetDefaultCredentialsProvider (ContextWithAWSCredentials h (some ctx) (some R)).heap
        (ContextWithAWSCredentials h (some ctx) (some R)).ctx
      = .returned (some (NewStaticCredentialsProvider R.accessKeyID R.secretAccessKey ""),
          none) := by
  rw [attach_first h ctx R hvalid hnostore]
  have hr := credentialsFromContext_withValue ctx (some h.next)
  refine ⟨rfl, ⟨_, h.next, rfl, hr, by simp [hid]⟩, ?_, ?_⟩
  · simp [GetCredentialsProvider, hr, CredMap.get, hid]
  · simp [GetDefaultCredentialsProvider, hr, CredMap.get]

theorem C19_identifier_not_validated_witness :
    (ContextWithAWSCredentials Heap.empty (some .background) (NewAWSCredentials "" "A" "B")).err
      = none ∧
    (∃ c1 a, (ContextWithAWSCredentials Heap.empty (some .background)
        (NewAWSCredentials "" "A" "B")).ctx = some c1 ∧
      credentialsFromContext c1 = (some a, none) ∧
      ((ContextWithAWSCredentials Heap.empty (some .background)
        (NewAWSCredentials "" "A" "B")).heap.mem a).defaultID = "") ∧
    GetCredentialsProvider
        (ContextWithAWSCredentials Heap.empty (some .background)
          (NewAWSCredentials "" "A" "B")).heap
        (ContextWithAWSCredentials Heap.empty (some .background)
          (NewAWSCredentials "" "A" "B")).ctx ""
      = .returned (some (NewStaticCredentialsProvider "A" "B" ""), none) ∧
    GetDefaultCredentialsProvider
        (ContextWithAWSCredentials Heap.empty (some .background)
          (NewAWSCredentials "" "A" "B")).heap
        (ContextWithAWSCredentials Heap.empty (some .background)
          (NewAWSCredentials "" "A" "B")).ctx
      = .returned (some (NewStaticCredentialsProvider "A" "B" ""), none) :=
  C19_identifier_not_validated Heap.empty .background ⟨"", "A", "B"⟩ rfl (by decide)
    (by decide)

end credentials
